import Mathlib

/-!
# Verification of the `home-plants` repository

Shallow embedding of the data model and operations of the `home-plants`
repository (a Home Assistant "Plants" integration plus MCP tool servers),
together with theorems settling a list of specification claims.

Python values flowing through the MCP layer are JSON-like dynamic values;
they are embedded by the `Json` inductive below.  Python `dict`s are
embedded as association lists with Python's update semantics (updating an
existing key keeps its position, fresh keys are appended, matching CPython's
insertion-order guarantee).
-/

set_option maxRecDepth 8000

namespace HomePlants

/-- JSON-like dynamic value, the embedding of Python objects handled by the
MCP tools (`None`, `bool`, `int`, `str`, `list`, `dict`). Numbers are
restricted to integers: no tool in the repository does fractional JSON
arithmetic. -/
inductive Json where
  | null
  | bool (b : Bool)
  | num (n : Int)
  | str (s : String)
  | arr (items : List Json)
  | obj (fields : List (String × Json))
deriving Repr

/-- Python truthiness of a JSON value: `None`, `False`, `0`, `""`, `[]`,
`{}` are falsy, everything else is truthy. -/
def pyTruthy : Json → Bool
  | .null => false
  | .bool b => b
  | .num n => n != 0
  | .str s => s ≠ ""
  | .arr items => !items.isEmpty
  | .obj fields => !fields.isEmpty

/-- `d.get(key)` on a Python dict (default `None`); on non-dict values the
tools only call `.get` after an `isinstance(..., dict)`-style guard, so the
non-object case returns `null`. -/
def Json.get : Json → String → Json
  | .obj fields, key =>
    match fields.find? (fun p => p.1 = key) with
    | some p => p.2
    | none => .null
  | _, _ => .null

/-- `d.get(key, default)` on a Python dict. -/
def Json.getD (j : Json) (key : String) (default : Json) : Json :=
  match j with
  | .obj fields =>
    match fields.find? (fun p => p.1 = key) with
    | some p => p.2
    | none => default
  | _ => default

/-- Python dict update `d[k] = v` on an association list: an existing key
keeps its position, a fresh key is appended (CPython insertion order). -/
def dictSet {α : Type} : List (String × α) → String → α → List (String × α)
  | [], k, v => [(k, v)]
  | (k', v') :: t, k, v =>
    if k' = k then (k, v) :: t else (k', v') :: dictSet t k v

/-- Python dict lookup `d.get(k)` on an association list. -/
def dictGet? {α : Type} (l : List (String × α)) (k : String) : Option α :=
  (l.find? (fun p => p.1 = k)).map (·.2)

/-- Python `d.pop(k, None)` on an association list: the popped value (if
any) and the remaining entries. -/
def dictPop {α : Type} : List (String × α) → String → Option α × List (String × α)
  | [], _ => (none, [])
  | (k', v') :: t, k =>
    if k' = k then (some v', t)
    else
      let r := dictPop t k
      (r.1, (k', v') :: r.2)

/-- Keys of an association-list dict, in order. -/
def dictKeys {α : Type} (l : List (String × α)) : List String :=
  l.map (·.1)

/-- Values of an association-list dict, in order. -/
def dictVals {α : Type} (l : List (String × α)) : List α :=
  l.map (·.2)

/-- `k in d` on an association-list dict. -/
def dictMem {α : Type} (l : List (String × α)) (k : String) : Bool :=
  l.any (fun p => p.1 = k)

/-- Update `d[k] = v` inside a JSON object (`dictSet` lifted to `Json`);
non-objects are returned unchanged (the tools only assign into dicts). -/
def Json.setKey : Json → String → Json → Json
  | .obj fields, k, v => .obj (dictSet fields k v)
  | j, _, _ => j

/-- Is this JSON value the given string?  Embeds Python `x == "lit"` where
`x` is a dynamically typed value: only a `str` can equal a string. -/
def Json.isStr : Json → String → Bool
  | .str s, t => s = t
  | _, _ => false

mutual

/-- Python `str(x)` for the JSON values the repository feeds to `str`
(`str(item.get("id"))`, `str(entry.get("title", ""))`); containers are
rendered in Python's `repr` style (string escapes are not modelled). -/
def pyToStr : Json → String
  | .null => "None"
  | .bool true => "True"
  | .bool false => "False"
  | .num n => toString n
  | .str s => s
  | .arr items => "[" ++ String.intercalate ", " (pyToStrList items) ++ "]"
  | .obj fields =>
      "\x7b" ++ String.intercalate ", " (pyToStrFields fields) ++ "\x7d"
termination_by structural j => j

/-- Renders the elements of a JSON array (strings quoted, `repr`
style). -/
def pyToStrList : List Json → List String
  | [] => []
  | .str s :: t => ("'" ++ s ++ "'") :: pyToStrList t
  | j :: t => pyToStr j :: pyToStrList t
termination_by structural l => l

/-- Renders the fields of a JSON object (string values quoted). -/
def pyToStrFields : List (String × Json) → List String
  | [] => []
  | (k, .str s) :: t => ("'" ++ k ++ "': '" ++ s ++ "'") :: pyToStrFields t
  | (k, v) :: t => ("'" ++ k ++ "': " ++ pyToStr v) :: pyToStrFields t
termination_by structural l => l

end

/-! String primitives re-implemented on character lists (the standard
byte-position loops do not reduce inside the kernel, which concrete
witnesses below rely on).  Python's `str.strip`/`str.lower` are
unicode-aware; the tools only handle ASCII identifiers. -/

/-- Python `s.strip()` (ASCII whitespace). -/
def pyStrip (s : String) : String :=
  String.mk (((s.data.dropWhile Char.isWhitespace).reverse.dropWhile
    Char.isWhitespace).reverse)

/-- Python `s.lower()` (ASCII case folding). -/
def pyLower (s : String) : String :=
  String.mk (s.data.map Char.toLower)

/-- Python `s.endswith(suffix)`. -/
def pyEndsWith (s suffix : String) : Bool :=
  suffix.data.isSuffixOf s.data

/-- Python `s[: -n]` for `0 < n ≤ len(s)`: drops the last `n`
characters. -/
def pyDropRight (s : String) (n : Nat) : String :=
  String.mk (s.data.take (s.data.length - n))

/-- Python `s.replace(c, rep)` for a single-character pattern (the only
shape the repository uses: `value.replace("Z", "+00:00")`). -/
def pyReplaceChar (s : String) (c : Char) (rep : String) : String :=
  String.mk (List.flatten (s.data.map (fun x => if x = c then rep.data else [x])))

/-- Python `s.rstrip(c)` for a single strip character (the only shape the
repository uses: `rstrip("/")`). -/
def pyRstripChar (s : String) (c : Char) : String :=
  String.mk ((s.data.reverse.dropWhile (· = c)).reverse)

/-- The loop of `splitOnChar`. -/
def splitOnCharGo (c : Char) : List Char → List Char → List String
  | [], acc => [String.mk acc.reverse]
  | x :: rest, acc =>
    if x = c then String.mk acc.reverse :: splitOnCharGo c rest []
    else splitOnCharGo c rest (x :: acc)

/-- Python `s.split(c)` for a single-character separator. -/
def splitOnChar (s : String) (c : Char) : List String :=
  splitOnCharGo c s.data []

/-! ## Python `datetime` model

The MCP history tools call `datetime.fromisoformat` on Home Assistant
timestamp strings.  We embed the subset of the ISO-8601 grammar those
payloads use: `YYYY-MM-DD[(T| )HH:MM[:SS[.f{1,6+}]][±HH:MM]]` (the code
first rewrites `Z` to `+00:00`, so `Z` suffixes reach the parser as an
explicit offset).  Fractional seconds beyond six digits are truncated,
as in CPython 3.11+. -/

/-- Naive components of a parsed Python `datetime`. -/
structure NaiveDatetime where
  year : Nat
  month : Nat
  day : Nat
  hour : Nat
  minute : Nat
  second : Nat
  microsecond : Nat
deriving Repr, DecidableEq

/-- A timezone-aware Python `datetime`: naive components plus a fixed UTC
offset in minutes (Home Assistant offsets are whole minutes). -/
structure AwareDatetime where
  naive : NaiveDatetime
  offsetMinutes : Int
deriving Repr, DecidableEq

/-- Decimal digit value of a character, if it is a digit. -/
def digit? (c : Char) : Option Nat :=
  if c.isDigit then some (c.toNat - '0'.toNat) else none

/-- Parses exactly two decimal digits. -/
def parse2 : List Char → Option (Nat × List Char)
  | c1 :: c2 :: rest => do
    let d1 ← digit? c1
    let d2 ← digit? c2
    pure (d1 * 10 + d2, rest)
  | _ => none

/-- Parses exactly four decimal digits. -/
def parse4 : List Char → Option (Nat × List Char)
  | c1 :: c2 :: c3 :: c4 :: rest => do
    let d1 ← digit? c1
    let d2 ← digit? c2
    let d3 ← digit? c3
    let d4 ← digit? c4
    pure (((d1 * 10 + d2) * 10 + d3) * 10 + d4, rest)
  | _ => none

/-- Splits off a maximal run of leading decimal digits. -/
def takeDigits : List Char → List Nat × List Char
  | [] => ([], [])
  | c :: rest =>
    match digit? c with
    | none => ([], c :: rest)
    | some d =>
      let r := takeDigits rest
      (d :: r.1, r.2)

/-- Gregorian leap year test. -/
def isLeapYear (y : Nat) : Bool :=
  y % 4 == 0 && (y % 100 != 0 || y % 400 == 0)

/-- Days in a month of the proleptic Gregorian calendar. -/
def daysInMonth (y m : Nat) : Nat :=
  if m = 2 then (if isLeapYear y then 29 else 28)
  else if m = 4 ∨ m = 6 ∨ m = 9 ∨ m = 11 then 30
  else 31

/-- Microseconds from the first (up to) six fractional-second digits,
truncating beyond six as CPython 3.11+ does. -/
def fracToMicros (ds : List Nat) : Nat :=
  let six := (ds.take 6) ++ List.replicate (6 - ds.length) 0
  six.foldl (fun acc d => acc * 10 + d) 0

/-- Parses a `±HH:MM` UTC offset (the shape produced by Home Assistant and
by the code's `Z → +00:00` rewrite), returning minutes. -/
def parseOffset : List Char → Option Int
  | sign :: rest => do
    let neg ← if sign = '+' then some false
              else if sign = '-' then some true else none
    let (oh, rest1) ← parse2 rest
    match rest1 with
    | ':' :: rest2 => do
      let (om, rest3) ← parse2 rest2
      if rest3 = [] ∧ oh < 24 ∧ om < 60 then
        let total : Int := (oh * 60 + om : Nat)
        pure (if neg then -total else total)
      else none
    | _ => none
  | [] => none

/-- Parses `[:SS[.frac]]` then an optional offset (the part of a time
component after `HH:MM`). -/
def parseSecondsAndOffset :
    List Char → Option (Nat × Nat × Option Int)
  | ':' :: rest => do
    let (s, rest1) ← parse2 rest
    if s ≥ 60 then none else
    match rest1 with
    | '.' :: rest2 =>
      let (ds, rest3) := takeDigits rest2
      if ds = [] then none else
      match rest3 with
      | [] => pure (s, fracToMicros ds, none)
      | _ => do
        let off ← parseOffset rest3
        pure (s, fracToMicros ds, some off)
    | [] => pure (s, 0, none)
    | _ => do
      let off ← parseOffset rest1
      pure (s, 0, some off)
  | [] => pure (0, 0, none)
  | rest => do
    let off ← parseOffset rest
    pure (0, 0, some off)

/-- Embedding of `datetime.fromisoformat` on the grammar subset used by
the repository's payloads; `none` is a `ValueError`. Returns the naive
components and the explicit UTC offset, if one was present. -/
def fromisoformat (value : String) : Option (NaiveDatetime × Option Int) := do
  let cs := value.data
  let (y, r1) ← parse4 cs
  match r1 with
  | '-' :: r2 => do
    let (m, r3) ← parse2 r2
    match r3 with
    | '-' :: r4 => do
      let (d, r5) ← parse2 r4
      if y = 0 ∨ m = 0 ∨ m > 12 ∨ d = 0 ∨ d > daysInMonth y m then none else
      match r5 with
      | [] => pure (⟨y, m, d, 0, 0, 0, 0⟩, none)
      | sep :: r6 =>
        if sep ≠ 'T' ∧ sep ≠ ' ' then none else do
        let (h, r7) ← parse2 r6
        match r7 with
        | ':' :: r8 => do
          let (mi, r9) ← parse2 r8
          if h ≥ 24 ∨ mi ≥ 60 then none else do
          let (s, us, off) ← parseSecondsAndOffset r9
          pure (⟨y, m, d, h, mi, s, us⟩, off)
        | _ => none
    | _ => none
  | _ => none

/-- Days since 1970-01-01 of a proleptic Gregorian date (Howard Hinnant's
`days_from_civil`, specialised to `year ≥ 1`). -/
def daysFromCivil (y m d : Nat) : Int :=
  let yAdj : Nat := if m ≤ 2 then y - 1 else y
  let era : Nat := yAdj / 400
  let yoe : Nat := yAdj % 400
  let mp : Nat := if m > 2 then m - 3 else m + 9
  let doy : Nat := (153 * mp + 2) / 5 + (d - 1)
  let doe : Nat := yoe * 365 + yoe / 4 - yoe / 100 + doy
  (era * 146097 + doe : Nat) - (719468 : Int)

/-- Microseconds since the Unix epoch of an aware datetime (its naive
clock reading minus its UTC offset). -/
def toEpochMicros (dt : AwareDatetime) : Int :=
  let n := dt.naive
  daysFromCivil n.year n.month n.day * 86400000000
    + ((n.hour * 3600 + n.minute * 60 + n.second) * 1000000 + n.microsecond : Nat)
    - dt.offsetMinutes * 60000000

/-- Monday-based weekday (0 = Monday … 6 = Sunday) of a date. -/
def weekdayOf (y m d : Nat) : Int :=
  (daysFromCivil y m d + 3) % 7

/-- Day of month of the n-th given weekday (Monday-based) on or after the
given day. -/
def nthWeekdayOnOrAfter (y m : Nat) (weekday : Int) (startDay n : Nat) : Int :=
  let w0 := weekdayOf y m startDay
  let delta := (weekday - w0) % 7
  (startDay : Int) + delta + 7 * (n - 1 : Nat)

/-- Modelled library behaviour: the UTC offset in minutes that
`ZoneInfo("America/Los_Angeles")` attaches to a naive datetime
(`replace(tzinfo=...)`, fold 0): −420 during US daylight saving time
(second Sunday of March 02:00 to first Sunday of November 02:00, the
post-2007 rule; transition-gap instants take the DST side here) and −480
otherwise. -/
def laOffsetMinutes (p : NaiveDatetime) : Int :=
  let dstStartDay := nthWeekdayOnOrAfter p.year 3 6 1 2
  let dstEndDay := nthWeekdayOnOrAfter p.year 11 6 1 1
  let key : Int :=
    ((((p.month * 100 + p.day) * 100 + p.hour) * 100 + p.minute : Nat) : Int)
  let startKey : Int := (3 * 100 + dstStartDay) * 100 * 100 + 2 * 100
  let endKey : Int := (11 * 100 + dstEndDay) * 100 * 100 + 2 * 100
  if startKey ≤ key ∧ key < endKey then -420 else -480

/-- Pads a number with leading zeros to the given width. -/
def padNum (width n : Nat) : String :=
  let s := toString n
  String.mk (List.replicate (width - s.length) '0') ++ s

/-- Embedding of `datetime.isoformat()` for an aware datetime: microseconds
are printed only when non-zero; the offset is printed as `±HH:MM`. -/
def isoformat (dt : AwareDatetime) : String :=
  let n := dt.naive
  let base :=
    padNum 4 n.year ++ "-" ++ padNum 2 n.month ++ "-" ++ padNum 2 n.day
      ++ "T" ++ padNum 2 n.hour ++ ":" ++ padNum 2 n.minute ++ ":"
      ++ padNum 2 n.second
      ++ (if n.microsecond = 0 then "" else "." ++ padNum 6 n.microsecond)
  let off := dt.offsetMinutes
  let offAbs : Nat := off.natAbs
  base ++ (if off < 0 then "-" else "+")
    ++ padNum 2 (offAbs / 60) ++ ":" ++ padNum 2 (offAbs % 60)

/-! ## `_parse_timestamp` and `_build_auto_watering_events`

`plants_mcp/tools/plant_care.py` and `plants_mcp/tools/analyze.py` define
textually identical `_build_auto_watering_events` functions; each closes
over its module's `_parse_timestamp`.  The two `_parse_timestamp` copies
differ only in the timezone attached to an offset-free parse result
(`timezone.utc` versus `ZoneInfo("America/Los_Angeles")`).  The shared
builder body is embedded once, parameterised by the timestamp parser in
scope, exactly mirroring that closure structure. -/

/-- `_parse_timestamp` from `plants_mcp/tools/plant_care.py`: empty string
and parse failures give `None`; an offset-free result gets
`tzinfo=timezone.utc`. -/
def parseTimestampPC (value : String) : Option AwareDatetime :=
  if value = "" then none
  else
    match fromisoformat (pyReplaceChar value 'Z' "+00:00") with
    | none => none
    | some (p, some off) => some ⟨p, off⟩
    | some (p, none) => some ⟨p, 0⟩

/-- `_parse_timestamp` from `plants_mcp/tools/analyze.py`: identical to the
`plant_care` copy except that an offset-free result gets
`tzinfo=ZoneInfo("America/Los_Angeles")`. -/
def parseTimestampAN (value : String) : Option AwareDatetime :=
  if value = "" then none
  else
    match fromisoformat (pyReplaceChar value 'Z' "+00:00") with
    | none => none
    | some (p, some off) => some ⟨p, off⟩
    | some (p, none) => some ⟨p, laOffsetMinutes p⟩

/-- Python `a or b`. -/
def pyOr (a b : Json) : Json :=
  if pyTruthy a then a else b

/-- `entry.get("last_changed") or entry.get("last_updated") or ""`. -/
def entryTimestampRaw (entry : Json) : Json :=
  pyOr (pyOr (entry.get "last_changed") (entry.get "last_updated")) (.str "")

/-- Applies a timestamp parser to the raw timestamp value of a history
entry.  A truthy non-string value would raise `TypeError` inside
`str.replace` in Python; it is treated as unparseable here (no Home
Assistant payload carries one). -/
def parseEntryTs (parseTs : String → Option AwareDatetime)
    (entry : Json) : Option AwareDatetime :=
  match entryTimestampRaw entry with
  | .str s => parseTs s
  | _ => none

/-- The event dict appended when a watering interval closes:
`{"type": kind, "start": ..., "end": ..., "duration_seconds":
int((ts - current_start).total_seconds())}`.  `int(...)` truncates toward
zero, which `Int.tdiv` matches; the float `total_seconds` is exact for
every realistic microsecond difference. -/
def closedEvent (kind : String) (t0 t1 : AwareDatetime) : Json :=
  .obj [("type", .str kind),
        ("start", .str (isoformat t0)),
        ("end", .str (isoformat t1)),
        ("duration_seconds",
          .num ((toEpochMicros t1 - toEpochMicros t0).tdiv 1000000))]

/-- The trailing event appended when the history ends while a watering
interval is still open. -/
def openEvent (kind : String) (t0 : AwareDatetime) : Json :=
  .obj [("type", .str kind),
        ("start", .str (isoformat t0)),
        ("end", .null),
        ("duration_seconds", .null)]

/-- The loop of `_build_auto_watering_events`: walks the entries carrying
`current_start`.  Entries with unparseable timestamps are skipped; an
`"on"` state opens an interval when none is open; a non-`"on"` state
closes an open interval; a still-open interval yields a trailing open
event. -/
def buildAutoGo (parseTs : String → Option AwareDatetime) (kind : String) :
    List Json → Option AwareDatetime → List Json
  | [], none => []
  | [], some t0 => [openEvent kind t0]
  | entry :: rest, cur =>
    match parseEntryTs parseTs entry with
    | none => buildAutoGo parseTs kind rest cur
    | some ts =>
      if (entry.get "state").isStr "on" then
        match cur with
        | none => buildAutoGo parseTs kind rest (some ts)
        | some t0 => buildAutoGo parseTs kind rest (some t0)
      else
        match cur with
        | some t0 => closedEvent kind t0 ts :: buildAutoGo parseTs kind rest none
        | none => buildAutoGo parseTs kind rest none

/-- `_build_auto_watering_events` from `plants_mcp/tools/plant_care.py`. -/
def buildAutoWateringEventsPC (entries : List Json) (kind : String) : List Json :=
  buildAutoGo parseTimestampPC kind entries none

/-- `_build_auto_watering_events` from `plants_mcp/tools/analyze.py`. -/
def buildAutoWateringEventsAN (entries : List Json) (kind : String) : List Json :=
  buildAutoGo parseTimestampAN kind entries none

/-- A minimal history entry with a state and a `last_changed` timestamp. -/
def mkHistEntry (state ts : String) : Json :=
  .obj [("state", .str state), ("last_changed", .str ts)]

/-! ## Python `==` on JSON values -/

mutual

/-- Python `==` on JSON-like values: structural, with Python's
`bool`/`int` cross-equality (`True == 1`); dicts are compared up to
equal key order (the tools only compare scalars, so the restriction is
never observable). -/
def pyEq : Json → Json → Bool
  | .null, .null => true
  | .bool a, .bool b => a == b
  | .bool a, .num n => (if a then 1 else 0 : Int) == n
  | .num n, .bool b => n == (if b then 1 else 0 : Int)
  | .num a, .num b => a == b
  | .str a, .str b => a == b
  | .arr a, .arr b => pyEqList a b
  | .obj a, .obj b => pyEqFields a b
  | _, _ => false
termination_by structural a => a

/-- Elementwise Python `==` on lists. -/
def pyEqList : List Json → List Json → Bool
  | [], [] => true
  | a :: as', b :: bs' => pyEq a b && pyEqList as' bs'
  | _, _ => false
termination_by structural a => a

/-- Python `==` on dict fields (equal key order; see `pyEq`). -/
def pyEqFields : List (String × Json) → List (String × Json) → Bool
  | [], [] => true
  | (k1, v1) :: t1, (k2, v2) :: t2 => k1 == k2 && pyEq v1 v2 && pyEqFields t1 t2
  | _, _ => false
termination_by structural a => a

end

/-- Is this JSON value `None`? -/
def Json.isNull : Json → Bool
  | .null => true
  | _ => false

/-- Python `value.endswith(suffix)` on a dynamic value: only strings end
with anything (a non-string would raise `TypeError`; unreachable on the
payloads the tools handle). -/
def Json.endsWithStr : Json → String → Bool
  | .str s, suffix => pyEndsWith s suffix
  | _, _ => false

/-! ## `plants_mcp/tools/common.py`: configuration, HTTP, matching -/

/-- The relevant process environment: values of `HA_URL` and `HA_TOKEN`
(`none` = unset). -/
structure Env where
  haUrl : Option String
  haToken : Option String

/-- `_get_ha_config` (identical in `plants_mcp/tools/common.py` and the
`mcp/tools/plants.py` copy): `HA_TOKEN` defaults to `""` and is required;
`HA_URL` defaults to `http://homeassistant.local:8123` and has trailing
slashes stripped. -/
def getHaConfig (env : Env) : Option (String × String) :=
  let haToken := env.haToken.getD ""
  let haUrl := pyRstripChar (env.haUrl.getD "http://homeassistant.local:8123") '/'
  if haToken = "" then none else some (haUrl, haToken)

/-- Body of an HTTP response: empty content, JSON content, or content that
fails JSON decoding. -/
inductive HttpBody where
  | empty
  | jsonContent (j : Json)
  | nonJson
deriving Repr

/-- An HTTP response delivered by `httpx`: status code, text, body. -/
structure HttpResponse where
  statusCode : Nat
  text : String
  body : HttpBody

/-- Outcome of one HTTP round-trip: an `httpx.HTTPError` message, or a
response. -/
abbrev HttpOutcome := Except String HttpResponse

/-- Result of `ha_request`: the `(status_code, data, error)` triple plus
whether an HTTP request was actually issued (used to state that no
request happens without a token). -/
structure HaCallResult where
  status : Nat
  data : Option Json
  error : Option String
  requested : Bool
deriving Repr

/-- `ha_request` from `plants_mcp/tools/common.py` (and the identical
`_ha_request` copies): no token means no request and the fixed error;
transport errors, HTTP ≥ 400, empty bodies and non-JSON bodies map to the
source's `(status_code, data, error)` triples. -/
def haRequest (env : Env) (outcome : HttpOutcome) : HaCallResult :=
  match getHaConfig env with
  | none => ⟨0, none, some "HA_TOKEN is not set", false⟩
  | some _ =>
    match outcome with
    | .error e => ⟨0, none, some ("Home Assistant request failed: " ++ e), true⟩
    | .ok r =>
      if r.statusCode ≥ 400 then ⟨r.statusCode, none, some r.text, true⟩
      else
        match r.body with
        | .empty => ⟨r.statusCode, none, none, true⟩
        | .jsonContent j => ⟨r.statusCode, some j, none, true⟩
        | .nonJson =>
          ⟨r.statusCode, none,
            some ("Unexpected non-JSON response: " ++ r.text), true⟩

/-- An observable action of an MCP tool: an HTTP GET, an HTTP POST with a
JSON payload, or a blocking sleep. -/
inductive Act where
  | get (path : String)
  | post (path : String) (body : Json)
  | sleep (seconds : Int)
deriving Repr

/-- Is this action a sleep? -/
def Act.isSleep : Act → Bool
  | .sleep _ => true
  | _ => false

/-- Is this action a POST to the given path? -/
def Act.isPostTo : Act → String → Bool
  | .post p _, q => p = q
  | _, _ => false

/-- `get_states_list`: one GET of `/api/states`; errors pass through and a
non-list payload becomes `"Unexpected states response"`.  Also returns the
actions performed. -/
def getStatesList (env : Env) (outcome : HttpOutcome) :
    (List Json × Option String) × List Act :=
  let r := haRequest env outcome
  let acts := if r.requested then [Act.get "/api/states"] else []
  match r.error with
  | some e => (([], some e), acts)
  | none =>
    match r.data with
    | some (.arr items) => ((items, none), acts)
    | _ => (([], some "Unexpected states response"), acts)

/-- `match_plant_name` from `plants_mcp/tools/common.py` (textually equal
to `_match_plant_name` in `plants_mcp/tools/plants.py`): exact match
first, then case-insensitive match, on the stripped identifier. -/
def matchPlantName (names : List String) (identifier : String) : Option String :=
  let candidate := pyStrip identifier
  if candidate = "" then none
  else
    match names.find? (fun n => n = candidate) with
    | some n => some n
    | none =>
      let lowered := pyLower candidate
      names.find? (fun n => pyLower n = lowered)

/-- `_match_entry` from `mcp/tools/plants.py`: exact match on `entry_id`
first, then case-insensitive match on `str(title)`, on the stripped
identifier. -/
def matchEntry (entries : List Json) (identifier : String) : Option Json :=
  let ident := pyStrip identifier
  if ident = "" then none
  else
    match entries.find? (fun e => (e.get "entry_id").isStr ident) with
    | some e => some e
    | none =>
      let lowered := pyLower ident
      entries.find? (fun e => pyLower (pyToStr (e.getD "title" (.str ""))) = lowered)

/-! ## `parse_plants_from_states` -/

/-- `PLANT_SUFFIXES` from `plants_mcp/tools/common.py`, in source order
(dict insertion order governs which suffix matches first). -/
def plantSuffixesCommon : List (String × String) :=
  [("moisture", "Soil Moisture State"),
   ("moisture_source", "Soil Moisture Device Source"),
   ("humidity", "Air Humidity Meter"),
   ("humidity_source", "Air Humidity Meter Source"),
   ("air_temperature", "Air Temperature Meter"),
   ("air_temperature_source", "Air Temperature Meter Source"),
   ("light_outlet", "Grow Light Device Source"),
   ("water_outlet", "Auto Watering Device Source"),
   ("light_power", "Grow Light Control"),
   ("water_power", "Auto Watering Control"),
   ("manual_watering", "Manual Watering Control"),
   ("light_state", "Grow Light State"),
   ("auto_watering_state", "Auto Watering State"),
   ("humidifier_state", "Air Humidifier State"),
   ("humidifier_control", "Air Humidifier Control"),
   ("humidifier_source", "Air Humidifier Device Source"),
   ("watering_frequency_recommendation",
     "Watering Frequency Recommendation (e.g., once a week)"),
   ("soil_moisture_recommendation",
     "Minimum Soil Moisture for Watering Recommendation (e.g., 25%)"),
   ("air_temperature_recommendation",
     "Air Temperature Recommendation (e.g., 20-24 C)"),
   ("air_humidity_recommendation",
     "Air Humidity Recommendation (e.g., 50-60%)"),
   ("other_recommendations",
     "Other Recommendations (e.g., - rotate weekly; - avoid drafts;)"),
   ("todo_list",
     "Todo List (e.g., - repot in spring; - prune dry leaves;)")]

/-- `PLANT_SUFFIXES` from `plants_mcp/tools/plants.py`, in source order. -/
def plantSuffixesPlantsTool : List (String × String) :=
  [("moisture", "Moisture"),
   ("moisture_source", "Moisture Source"),
   ("light_outlet", "Light Outlet"),
   ("water_outlet", "Water Outlet"),
   ("light_power", "Light Power"),
   ("water_power", "Water Power"),
   ("manual_watering", "Manual Watering")]

/-- `sanitize_attributes`: drops the `options` key if present (identical in
`common.py` and `plants.py`). -/
def sanitizeAttributes (attributes : Json) : Json :=
  match attributes with
  | .obj fields =>
    if dictMem fields "options" then .obj (dictPop fields "options").2
    else .obj fields
  | j => j

/-- The suffix loop of `parse_plants_from_states`: the first
`(key, suffix)` whose `" " ++ suffix` ends the friendly name wins; returns
the key and `friendly[: -len(suffix) - 1]`. -/
def findSuffix : List (String × String) → String → Option (String × String)
  | [], _ => none
  | (key, suffix) :: rest, friendly =>
    if pyEndsWith friendly (" " ++ suffix) then
      some (key, pyDropRight friendly (suffix.length + 1))
    else findSuffix rest friendly

/-- Appends an entity record to a plant info dict's `entities` list. -/
def appendEntity (info entityId stateVal attrs : Json) : Json :=
  let entities :=
    match info.get "entities" with
    | .arr items => items
    | _ => []
  info.setKey "entities"
    (.arr (entities ++
      [Json.obj [("entity_id", entityId), ("state", stateVal),
                 ("attributes", attrs)]]))

/-- The body of `parse_plants_from_states` (identical in `common.py` and
`plants.py`, up to the `PLANT_SUFFIXES` table in scope): groups entity
states into per-plant info dicts keyed by the stripped plant name. -/
def parsePlantsGo (suffixes : List (String × String)) :
    List Json → List (String × Json) → List (String × Json)
  | [], plants => plants
  | state :: rest, plants =>
    let entityId := state.get "entity_id"
    if ¬ pyTruthy entityId then parsePlantsGo suffixes rest plants
    else
      let attributes := state.getD "attributes" (.obj [])
      match attributes.getD "friendly_name" (.str "") with
      | .str friendly =>
        if friendly = "" then parsePlantsGo suffixes rest plants
        else
          match findSuffix suffixes friendly with
          | none => parsePlantsGo suffixes rest plants
          | some (key, rawName) =>
            let plantName := pyStrip rawName
            if plantName = "" then parsePlantsGo suffixes rest plants
            else
              let info := (dictGet? plants plantName).getD
                (Json.obj [("name", .str plantName), ("entities", .arr [])])
              let info := appendEntity info entityId (state.get "state")
                (sanitizeAttributes attributes)
              let info := info.setKey (key ++ "_entity_id") entityId
              let info := info.setKey key (state.get "state")
              parsePlantsGo suffixes rest (dictSet plants plantName info)
      | _ => parsePlantsGo suffixes rest plants

/-- `parse_plants_from_states`, parameterised by the `PLANT_SUFFIXES`
table of the defining module.  A truthy non-string friendly name (which
would raise `TypeError` at `endswith` in Python) is skipped. -/
def parsePlantsFromStates (suffixes : List (String × String))
    (states : List Json) : List (String × Json) :=
  parsePlantsGo suffixes states []

/-! ## The watering tools

`plant_care___water` (`plants_mcp/tools/plant_care.py`) and `water_plant`
(`plants_mcp/tools/plants.py`) share one body up to the `PLANT_SUFFIXES`
table used by the `parse_plants_from_states` in scope; `water_plant` in
`mcp/tools/plants.py` is a different tool (it edits `last_watered` and
`soil_moisture`).  Each embedding returns the list of performed actions
and the JSON result. -/

/-- Builds `{"status": "error", "error": msg}`. -/
def errorResult (msg : String) : Json :=
  .obj [("status", .str "error"), ("error", .str msg)]

/-- Shared body of `plant_care___water` and of `water_plant` in
`plants_mcp/tools/plants.py`: validate the duration, list states, match
the plant, locate its `water_power` switch, check availability, then
turn on / sleep / turn off.  `statesOutcome`, `onOutcome`, `offOutcome`
are the oracle responses of the three HTTP calls, consumed in program
order. -/
def waterPlantTimed (suffixes : List (String × String)) (env : Env)
    (statesOutcome onOutcome offOutcome : HttpOutcome)
    (identifier : String) (durationSeconds : Int) : List Act × Json :=
  if durationSeconds ≤ 0 then ([], errorResult "Duration must be positive")
  else
    let sl := getStatesList env statesOutcome
    let states := sl.1.1
    let acts := sl.2
    match sl.1.2 with
    | some e => (acts, errorResult e)
    | none =>
      let plants := parsePlantsFromStates suffixes states
      match matchPlantName (dictKeys plants) identifier with
      | none => (acts, errorResult "Plant not found")
      | some plantName =>
        let plant := (dictGet? plants plantName).getD (.obj [])
        let switchEntityId := plant.get "water_power_entity_id"
        if ¬ pyTruthy switchEntityId then
          (acts, errorResult
            ("No watering device is configured for this plant. " ++
             "You can only water it manually."))
        else
          let outletState :=
            states.find? (fun s => pyEq (s.get "entity_id") switchEntityId)
          let unavailable :=
            match outletState with
            | none => true
            | some s => (s.get "state").isStr "unavailable"
          if unavailable then
            (acts, errorResult
              ("The watering device for this plant is unavailable. " ++
               "You can only water it manually."))
          else
            let onBody := Json.obj [("entity_id", switchEntityId)]
            let rOn := haRequest env onOutcome
            let acts := acts ++
              (if rOn.requested then [Act.post "/api/services/switch/turn_on" onBody]
               else [])
            match rOn.error with
            | some e => (acts, errorResult e)
            | none =>
              let acts := acts ++ [Act.sleep durationSeconds]
              let rOff := haRequest env offOutcome
              let acts := acts ++
                (if rOff.requested then
                  [Act.post "/api/services/switch/turn_off" onBody]
                 else [])
              match rOff.error with
              | some e => (acts, errorResult e)
              | none =>
                (acts, .obj [("status", .str "success"),
                             ("plant", .str plantName),
                             ("water_switch", switchEntityId),
                             ("duration_seconds", .num durationSeconds)])

/-- `plant_care___water` from `plants_mcp/tools/plant_care.py`. -/
def plantCareWater (env : Env)
    (statesOutcome onOutcome offOutcome : HttpOutcome)
    (identifier : String) (durationSeconds : Int) : List Act × Json :=
  waterPlantTimed plantSuffixesCommon env statesOutcome onOutcome offOutcome
    identifier durationSeconds

/-- `water_plant` from `plants_mcp/tools/plants.py`. -/
def waterPlantPlantsTool (env : Env)
    (statesOutcome onOutcome offOutcome : HttpOutcome)
    (identifier : String) (durationSeconds : Int) : List Act × Json :=
  waterPlantTimed plantSuffixesPlantsTool env statesOutcome onOutcome offOutcome
    identifier durationSeconds

/-- `_get_config_entries` from `mcp/tools/plants.py`: one GET of the
config-entry list, filtered to the given domain. -/
def getConfigEntries (env : Env) (outcome : HttpOutcome) (domain : String) :
    (List Json × Option String) × List Act :=
  let r := haRequest env outcome
  let acts := if r.requested then [Act.get "/api/config/config_entries/entries"] else []
  match r.error with
  | some e => (([], some e), acts)
  | none =>
    match r.data with
    | some (.arr items) =>
      ((items.filter (fun e => (e.get "domain").isStr domain), none), acts)
    | _ => (([], some "Unexpected config entries response"), acts)

/-- `_get_entity_registry` from `mcp/tools/plants.py`. -/
def getEntityRegistry (env : Env) (outcome : HttpOutcome) :
    (List Json × Option String) × List Act :=
  let r := haRequest env outcome
  let acts := if r.requested then [Act.get "/api/config/entity_registry/list"] else []
  match r.error with
  | some e => (([], some e), acts)
  | none =>
    match r.data with
    | some (.arr items) => ((items, none), acts)
    | _ => (([], some "Unexpected entity registry response"), acts)

/-- `water_plant` from `mcp/tools/plants.py`: matches a config entry,
finds its `_last_watered` and `_soil_moisture` entities in the registry,
and posts `datetime/set_value` (current time) and `number/set_value`
(100) for them.  `nowIso` embeds `datetime.now(timezone.utc).isoformat()`;
the four oracle outcomes correspond to the at most four HTTP calls in
program order. -/
def waterPlantMcp (env : Env)
    (entriesOutcome registryOutcome dtOutcome numOutcome : HttpOutcome)
    (identifier nowIso : String) : List Act × Json :=
  let ce := getConfigEntries env entriesOutcome "plants"
  let acts := ce.2
  match ce.1.2 with
  | some e => (acts, errorResult e)
  | none =>
    match matchEntry ce.1.1 identifier with
    | none => (acts, errorResult "Plant not found")
    | some entry =>
      let reg := getEntityRegistry env registryOutcome
      let acts := acts ++ reg.2
      match reg.1.2 with
      | some e => (acts, errorResult e)
      | none =>
        let entryId := entry.get "entry_id"
        let entityIds :=
          (reg.1.1.filter (fun item => pyEq (item.get "config_entry_id") entryId)
            |>.map (fun item => item.get "entity_id"))
            |>.filter pyTruthy
        let moistureId := entityIds.find? (fun eid => eid.endsWithStr "_soil_moisture")
        let wateredId := entityIds.find? (fun eid => eid.endsWithStr "_last_watered")
        let step1 : List Act × List (String × Json) :=
          match wateredId with
          | none => ([], [])
          | some wid =>
            let body := Json.obj [("entity_id", wid), ("value", .str nowIso)]
            let r := haRequest env dtOutcome
            let a := if r.requested then [Act.post "/api/services/datetime/set_value" body] else []
            (a, [("last_watered",
                  match r.error with
                  | none => .str "ok"
                  | some e => .str e)])
        let step2 : List Act × List (String × Json) :=
          match moistureId with
          | none => ([], [])
          | some mid =>
            let body := Json.obj [("entity_id", mid), ("value", .num 100)]
            let r := haRequest env numOutcome
            let a := if r.requested then [Act.post "/api/services/number/set_value" body] else []
            (a, [("soil_moisture",
                  match r.error with
                  | none => .str "ok"
                  | some e => .str e)])
        (acts ++ step1.1 ++ step2.1,
         .obj [("status", .str "success"),
               ("plant", entry.get "title"),
               ("results", .obj (step1.2 ++ step2.2))])

/-! ## `plants_mcp/tools/manage.py`: field editing -/

/-- Stable insertion placing `x` after every element whose key is `≤` its
key (so the fold below is a stable ascending sort, matching Python
`list.sort(key=...)`). -/
def insertAfterLE (key : Json → String) : List Json → Json → List Json
  | [], x => [x]
  | y :: ys, x =>
    if key y ≤ key x then y :: insertAfterLE key ys x else x :: y :: ys

/-- Stable ascending sort by a string key (Python `list.sort(key=...)`,
where string comparison is code-point lexicographic in both languages). -/
def sortByKeyStable (key : Json → String) (l : List Json) : List Json :=
  l.foldl (insertAfterLE key) []

/-- The sort key `item.get("name") or ""` (names are friendly-name
strings; a non-string would make Python's sort raise). -/
def fieldNameKey (item : Json) : String :=
  match pyOr (item.get "name") (.str "") with
  | .str s => s
  | _ => ""

/-- `entity_id.split(".")[0]`: the domain of an entity id. -/
def domainOf : Json → String
  | .str s => (splitOnChar s '.').headD ""
  | _ => ""

/-- The per-state loop of `manage___get_plant_fields_info`: collects
`select` fields into `configuration` and `text` fields into
`recommendations` for the matched plant, in state order (before the final
sort).  Returns `(configuration, recommendations)`. -/
def fieldsInfoGo (matchedName : String) :
    List Json → List Json × List Json
  | [] => ([], [])
  | state :: rest =>
    let tail := fieldsInfoGo matchedName rest
    let entityId := state.get "entity_id"
    if ¬ pyTruthy entityId then tail
    else
      let attributes := state.getD "attributes" (.obj [])
      match attributes.getD "friendly_name" (.str "") with
      | .str friendly =>
        if friendly = "" then tail
        else
          match findSuffix plantSuffixesCommon friendly with
          | none => tail
          | some (_, rawName) =>
            if pyStrip rawName ≠ matchedName then tail
            else
              let domain := domainOf entityId
              if domain ≠ "select" ∧ domain ≠ "text" then tail
              else
                let fieldInfo := Json.obj
                  [("type", .str domain), ("name", .str friendly),
                   ("current_value", state.get "state"),
                   ("required", .bool false), ("entity_id", entityId)]
                let fieldInfo :=
                  if domain = "select" then
                    let options := attributes.get "options"
                    if pyTruthy options then fieldInfo.setKey "options" options
                    else fieldInfo
                  else
                    let exampleVal := attributes.get "example"
                    if pyTruthy exampleVal then fieldInfo.setKey "example" exampleVal
                    else fieldInfo
                if domain = "select" then (fieldInfo :: tail.1, tail.2)
                else (tail.1, fieldInfo :: tail.2)
      | _ => tail

/-- `manage___get_plant_fields_info`: lists states, matches the plant
name, collects its editable `select`/`text` fields and sorts each
category by field name. -/
def manageGetPlantFieldsInfo (env : Env) (statesOutcome : HttpOutcome)
    (plantName : String) : List Act × Json :=
  let sl := getStatesList env statesOutcome
  let states := sl.1.1
  let acts := sl.2
  match sl.1.2 with
  | some e => (acts, errorResult e)
  | none =>
    let plantsData := parsePlantsFromStates plantSuffixesCommon states
    match matchPlantName (dictKeys plantsData) plantName with
    | none => (acts, errorResult "Plant not found")
    | some matchedName =>
      let collected := fieldsInfoGo matchedName states
      (acts,
       .obj [("status", .str "success"),
             ("plant", .str matchedName),
             ("fields",
               .obj [("recommendations",
                       .arr (sortByKeyStable fieldNameKey collected.2)),
                     ("configuration",
                       .arr (sortByKeyStable fieldNameKey collected.1))])])

/-- Association-list update with Python `==` keys (`d[k] = v` on a dict
whose keys are dynamic values). -/
def pyDictSet : List (Json × Json) → Json → Json → List (Json × Json)
  | [], k, v => [(k, v)]
  | (k', v') :: t, k, v =>
    if pyEq k' k then (k, v) :: t else (k', v') :: pyDictSet t k v

/-- Association-list lookup with Python `==` keys. -/
def pyDictGet? (l : List (Json × Json)) (k : Json) : Option Json :=
  (l.find? (fun p => pyEq p.1 k)).map (·.2)

/-- `k in d` with Python `==` keys. -/
def pyDictMem (l : List (Json × Json)) (k : Json) : Bool :=
  l.any (fun p => pyEq p.1 k)

/-- `value in options` (Python `in` on a list). -/
def jsonContains (options value : Json) : Bool :=
  match options with
  | .arr items => items.any (fun o => pyEq o value)
  | _ => false

/-- Builds `editable_fields`: maps each field's `entity_id` to its field
info, `configuration` category first, as in the source. -/
def buildEditable (fieldsList : List Json) (acc : List (Json × Json)) :
    List (Json × Json) :=
  fieldsList.foldl (fun acc f => pyDictSet acc (f.get "entity_id") f) acc

/-- `', '.join(options)` (options are strings on real payloads; a
non-string would raise `TypeError` in Python and is rendered loosely). -/
def joinOptions (options : Json) : String :=
  match options with
  | .arr items => String.intercalate ", " (items.map pyToStr)
  | _ => ""

/-- Result of validating one field update. -/
inductive FieldCheck where
  | err (msg : String)
  | upd (u : Json)

/-- The validation branch of `manage___set_plant_fields` for one entry of
`fields`. -/
def checkFieldUpdate (plantName : String) (editable : List (Json × Json))
    (fu : Json) : FieldCheck :=
  let entityId := fu.get "entity_id"
  let value := fu.get "value"
  if ¬ pyTruthy entityId then .err "Missing entity_id in field update"
  else if value.isNull then
    .err ("Missing value for " ++ pyToStr entityId)
  else if ¬ pyDictMem editable entityId then
    .err ("Field " ++ pyToStr entityId ++
          " is not editable or does not belong to " ++ plantName)
  else
    let fieldInfo := (pyDictGet? editable entityId).getD .null
    let domain := fieldInfo.get "type"
    if domain.isStr "select" then
      let options := fieldInfo.getD "options" (.arr [])
      if ¬ pyTruthy options then
        .err ("No options available for " ++ pyToStr entityId)
      else if ¬ jsonContains options value then
        .err ("Invalid value '" ++ pyToStr value ++ "' for " ++
              pyToStr entityId ++ ". Valid options: " ++ joinOptions options)
      else
        .upd (.obj [("service", .str "select/select_option"),
                    ("entity_id", entityId),
                    ("data", .obj [("option", value)])])
    else if domain.isStr "text" then
      .upd (.obj [("service", .str "text/set_value"),
                  ("entity_id", entityId),
                  ("data", .obj [("value", .str (pyToStr value))])])
    else
      .err ("Unsupported field type '" ++ pyToStr domain ++ "' for " ++
            pyToStr entityId)

/-- The validation loop: errors and updates, each in input order. -/
def validateFields (plantName : String) (editable : List (Json × Json)) :
    List Json → List String × List Json
  | [] => ([], [])
  | fu :: rest =>
    let tail := validateFields plantName editable rest
    match checkFieldUpdate plantName editable fu with
    | .err e => (e :: tail.1, tail.2)
    | .upd u => (tail.1, u :: tail.2)

/-- `f"/api/services/{domain}/{service}"` after
`domain, service = service_path.split("/")`. -/
def servicePathOf (servicePath : String) : String :=
  match splitOnChar servicePath '/' with
  | [d, s] => "/api/services/" ++ d ++ "/" ++ s
  | _ => ""

/-- The execution loop of `manage___set_plant_fields`: posts each update
(the oracle gives the outcome of the i-th call) and collects successful
results and failure messages.  Returns `(results, errors, actions)`. -/
def execUpdates (env : Env) (oracle : Nat → HttpOutcome) :
    List Json → Nat → List Json × List String × List Act
  | [], _ => ([], [], [])
  | u :: rest, i =>
    let entityId := u.get "entity_id"
    let data := (u.get "data").setKey "entity_id" entityId
    let path := servicePathOf (pyToStr (u.get "service"))
    let r := haRequest env (oracle i)
    let act := if r.requested then [Act.post path data] else []
    let tail := execUpdates env oracle rest (i + 1)
    match r.error with
    | some e =>
      (tail.1, ("Failed to update " ++ pyToStr entityId ++ ": " ++ e) :: tail.2.1,
       act ++ tail.2.2)
    | none =>
      (Json.obj [("entity_id", entityId), ("updated", .bool true)] :: tail.1,
       tail.2.1, act ++ tail.2.2)

/-- `manage___set_plant_fields`: validates the requested field updates
against `manage___get_plant_fields_info`, then executes them;
validation failures give `status: "error"`, partially failed execution
gives `status: "partial_success"`. -/
def manageSetPlantFields (env : Env) (statesOutcome : HttpOutcome)
    (updateOracle : Nat → HttpOutcome)
    (plantName : String) (fields : List Json) : List Act × Json :=
  if fields.isEmpty then ([], errorResult "No fields provided")
  else
    let infoCall := manageGetPlantFieldsInfo env statesOutcome plantName
    let infoResult := infoCall.2
    let acts := infoCall.1
    if ¬ (infoResult.get "status").isStr "success" then (acts, infoResult)
    else
      let fieldsObj := infoResult.get "fields"
      let editable := buildEditable
        (match fieldsObj.get "recommendations" with | .arr l => l | _ => [])
        (buildEditable
          (match fieldsObj.get "configuration" with | .arr l => l | _ => []) [])
      let v := validateFields plantName editable fields
      if ¬ v.1.isEmpty then
        (acts, .obj [("status", .str "error"),
                     ("error", .str "Validation failed"),
                     ("errors", .arr (v.1.map .str))])
      else
        let ex := execUpdates env updateOracle v.2 0
        let acts := acts ++ ex.2.2
        if ¬ ex.2.1.isEmpty then
          (acts, .obj [("status", .str "partial_success"),
                       ("updated", .arr ex.1),
                       ("errors", .arr (ex.2.1.map .str))])
        else
          (acts, .obj [("status", .str "success"),
                       ("plant", .str plantName),
                       ("updated", .arr ex.1)])

/-! ## `ha_integration/data.py`: persisted storage

`Plant` embeds the dataclass of `src/ha_integration/data.py`.  The
dataclass annotations (`str | None`) are not enforced by Python, and
`_parse_raw` stores whatever JSON values the payload carries, so every
field except the id is embedded as a `Json` value. -/

/-- The `Plant` dataclass. -/
structure Plant where
  plant_id : String
  name : Json
  moisture_entity_id : Json
  humidity_entity_id : Json
  air_temperature_entity_id : Json
  light_entity_id : Json
  water_entity_id : Json
  humidifier_entity_id : Json
  watering_frequency_recommendation : Json
  soil_moisture_recommendation : Json
  air_temperature_recommendation : Json
  air_humidity_recommendation : Json
  other_recommendations : Json
  todo_list : Json
deriving Repr

/-- The `MeterLocation` dataclass. -/
structure MeterLocation where
  location_id : String
  name : Json
  air_temperature_entity_id : Json
  air_humidity_entity_id : Json
  description : Json
  comments : Json
deriving Repr

/-- The loop of `PlantsData._parse_raw`: `plant_id = str(item.get("id"))`
(so a missing id yields the truthy key `"None"`), entries with an empty
id string are skipped, and a falsy name falls back to the id. -/
def parseRawPlantsGo : List Json → List (String × Plant) → List (String × Plant)
  | [], plants => plants
  | item :: rest, plants =>
    let plantId := pyToStr (item.get "id")
    if plantId = "" then parseRawPlantsGo rest plants
    else
      parseRawPlantsGo rest (dictSet plants plantId
        { plant_id := plantId
          name := pyOr (item.get "name") (.str plantId)
          moisture_entity_id := item.get "moisture_entity_id"
          humidity_entity_id := item.get "humidity_entity_id"
          air_temperature_entity_id := item.get "air_temperature_entity_id"
          light_entity_id := item.get "light_entity_id"
          water_entity_id := item.get "water_entity_id"
          humidifier_entity_id := item.get "humidifier_entity_id"
          watering_frequency_recommendation :=
            item.get "watering_frequency_recommendation"
          soil_moisture_recommendation := item.get "soil_moisture_recommendation"
          air_temperature_recommendation :=
            item.get "air_temperature_recommendation"
          air_humidity_recommendation := item.get "air_humidity_recommendation"
          other_recommendations := item.get "other_recommendations"
          todo_list := item.get "todo_list" })

/-- `PlantsData._parse_raw`. -/
def parseRawPlants (raw : Json) : List (String × Plant) :=
  match raw.getD "plants" (.arr []) with
  | .arr items => parseRawPlantsGo items []
  | _ => []

/-- One plant record of the `PlantsData.async_save` payload. -/
def plantToJson (p : Plant) : Json :=
  .obj [("id", .str p.plant_id),
        ("name", p.name),
        ("moisture_entity_id", p.moisture_entity_id),
        ("humidity_entity_id", p.humidity_entity_id),
        ("air_temperature_entity_id", p.air_temperature_entity_id),
        ("light_entity_id", p.light_entity_id),
        ("water_entity_id", p.water_entity_id),
        ("humidifier_entity_id", p.humidifier_entity_id),
        ("watering_frequency_recommendation", p.watering_frequency_recommendation),
        ("soil_moisture_recommendation", p.soil_moisture_recommendation),
        ("air_temperature_recommendation", p.air_temperature_recommendation),
        ("air_humidity_recommendation", p.air_humidity_recommendation),
        ("other_recommendations", p.other_recommendations),
        ("todo_list", p.todo_list)]

/-- The JSON payload `PlantsData.async_save` persists. -/
def savePayloadPlants (plants : List (String × Plant)) : Json :=
  .obj [("plants", .arr ((dictVals plants).map plantToJson))]

/-- `PlantsData.add_plant`: builds a plant under a freshly generated id
(`newId` embeds `str(uuid4())`) and stores it.  Returns the plant and the
updated map. -/
def addPlant (plants : List (String × Plant)) (newId : String)
    (name : String) (moistureEntityId : Json) : Plant × List (String × Plant) :=
  let plant : Plant :=
    { plant_id := newId
      name := .str name
      moisture_entity_id := moistureEntityId
      humidity_entity_id := .null
      air_temperature_entity_id := .null
      light_entity_id := .null
      water_entity_id := .null
      humidifier_entity_id := .null
      watering_frequency_recommendation := .null
      soil_moisture_recommendation := .null
      air_temperature_recommendation := .null
      air_humidity_recommendation := .null
      other_recommendations := .null
      todo_list := .null }
  (plant, dictSet plants newId plant)

/-- `PlantsData.remove_plant`: `self.plants.pop(plant_id, None) is not
None`. -/
def removePlant (plants : List (String × Plant)) (plantId : String) :
    Bool × List (String × Plant) :=
  let r := dictPop plants plantId
  (r.1.isSome, r.2)

/-- Updates one field of a stored plant if the id exists (the common shape
of the six `set_plant_*` mutators). -/
def setPlantField (plants : List (String × Plant)) (plantId : String)
    (update : Plant → Plant) : List (String × Plant) :=
  match dictGet? plants plantId with
  | none => plants
  | some p => dictSet plants plantId (update p)

/-- The operations `PlantsData` exposes on its plants map (`add_plant`,
`remove_plant` and the six `set_plant_*` mutators); `newId` stands for
the `str(uuid4())` drawn inside `add_plant`. -/
inductive PlantsOp where
  | add (newId name : String) (moistureEntityId : Json)
  | remove (plantId : String)
  | setMoisture (plantId : String) (entityId : Json)
  | setHumidity (plantId : String) (entityId : Json)
  | setAirTemperature (plantId : String) (entityId : Json)
  | setLight (plantId : String) (entityId : Json)
  | setWater (plantId : String) (entityId : Json)
  | setHumidifier (plantId : String) (entityId : Json)

/-- Applies a `PlantsData` operation to the stored plants map. -/
def applyPlantsOp (op : PlantsOp) (plants : List (String × Plant)) :
    List (String × Plant) :=
  match op with
  | .add newId name m => (addPlant plants newId name m).2
  | .remove pid => (removePlant plants pid).2
  | .setMoisture pid v =>
    setPlantField plants pid (fun p => { p with moisture_entity_id := v })
  | .setHumidity pid v =>
    setPlantField plants pid (fun p => { p with humidity_entity_id := v })
  | .setAirTemperature pid v =>
    setPlantField plants pid (fun p => { p with air_temperature_entity_id := v })
  | .setLight pid v =>
    setPlantField plants pid (fun p => { p with light_entity_id := v })
  | .setWater pid v =>
    setPlantField plants pid (fun p => { p with water_entity_id := v })
  | .setHumidifier pid v =>
    setPlantField plants pid (fun p => { p with humidifier_entity_id := v })

/-- The self-consistency invariant: every plant is stored under its own
`plant_id`. -/
def plantsConsistent (plants : List (String × Plant)) : Prop :=
  ∀ e ∈ plants, (e.2 : Plant).plant_id = e.1

/-- The loop of `MeterLocationsData._parse_raw`. -/
def parseRawMetersGo :
    List Json → List (String × MeterLocation) → List (String × MeterLocation)
  | [], locs => locs
  | item :: rest, locs =>
    let locationId := pyToStr (item.get "id")
    if locationId = "" then parseRawMetersGo rest locs
    else
      parseRawMetersGo rest (dictSet locs locationId
        { location_id := locationId
          name := pyOr (item.get "name") (.str locationId)
          air_temperature_entity_id := item.get "air_temperature_entity_id"
          air_humidity_entity_id := item.get "air_humidity_entity_id"
          description := item.get "description"
          comments := item.get "comments" })

/-- `MeterLocationsData._parse_raw`. -/
def parseRawMeters (raw : Json) : List (String × MeterLocation) :=
  match raw.getD "meter_locations" (.arr []) with
  | .arr items => parseRawMetersGo items []
  | _ => []

/-- One record of the `MeterLocationsData.async_save` payload. -/
def meterToJson (l : MeterLocation) : Json :=
  .obj [("id", .str l.location_id),
        ("name", l.name),
        ("air_temperature_entity_id", l.air_temperature_entity_id),
        ("air_humidity_entity_id", l.air_humidity_entity_id),
        ("description", l.description),
        ("comments", l.comments)]

/-- The JSON payload `MeterLocationsData.async_save` persists. -/
def savePayloadMeters (locs : List (String × MeterLocation)) : Json :=
  .obj [("meter_locations", .arr ((dictVals locs).map meterToJson))]

/-- `MeterLocationsData.add_meter_location`. -/
def addMeterLocation (locs : List (String × MeterLocation)) (newId : String)
    (name : String) (airTemp airHum description comments : Json) :
    MeterLocation × List (String × MeterLocation) :=
  let loc : MeterLocation :=
    { location_id := newId
      name := .str name
      air_temperature_entity_id := airTemp
      air_humidity_entity_id := airHum
      description := description
      comments := comments }
  (loc, dictSet locs newId loc)

/-- `MeterLocationsData.remove_meter_location`. -/
def removeMeterLocation (locs : List (String × MeterLocation))
    (locationId : String) : Bool × List (String × MeterLocation) :=
  let r := dictPop locs locationId
  (r.1.isSome, r.2)

/-- Updates one field of a stored meter location if the id exists (the
shape of the four `set_meter_location_*` mutators). -/
def setMeterField (locs : List (String × MeterLocation)) (locationId : String)
    (update : MeterLocation → MeterLocation) : List (String × MeterLocation) :=
  match dictGet? locs locationId with
  | none => locs
  | some l => dictSet locs locationId (update l)

/-- The operations `MeterLocationsData` exposes on its map. -/
inductive MetersOp where
  | add (newId name : String) (airTemp airHum description comments : Json)
  | remove (locationId : String)
  | setAirTemperature (locationId : String) (entityId : Json)
  | setAirHumidity (locationId : String) (entityId : Json)
  | setDescription (locationId : String) (v : Json)
  | setComments (locationId : String) (v : Json)

/-- Applies a `MeterLocationsData` operation. -/
def applyMetersOp (op : MetersOp) (locs : List (String × MeterLocation)) :
    List (String × MeterLocation) :=
  match op with
  | .add newId name a b c d => (addMeterLocation locs newId name a b c d).2
  | .remove lid => (removeMeterLocation locs lid).2
  | .setAirTemperature lid v =>
    setMeterField locs lid (fun l => { l with air_temperature_entity_id := v })
  | .setAirHumidity lid v =>
    setMeterField locs lid (fun l => { l with air_humidity_entity_id := v })
  | .setDescription lid v =>
    setMeterField locs lid (fun l => { l with description := v })
  | .setComments lid v =>
    setMeterField locs lid (fun l => { l with comments := v })

/-- The self-consistency invariant for meter locations. -/
def metersConsistent (locs : List (String × MeterLocation)) : Prop :=
  ∀ e ∈ locs, (e.2 : MeterLocation).location_id = e.1

/-! ## Service handlers (`ha_integration/__init__.py`)

`src/ha_integration/__init__.py` registers the `plants.*` services and
calls lamp-aware `PlantsData` methods (`add_lamp`, `remove_lamp`,
`link_lamp_plants`, `set_lamp_outlet`, `data.lamps`, and a `remove_plant`
that cascades), but the lamp-aware version of `data.py` is not part of
the source tree (`src/ha_integration/data.py` is a lamp-less revision).
Those data methods are therefore modelled from the spec; the handler
bodies themselves are embedded from `__init__.py`. -/

/-- Modelled from the spec: the persisted `Lamp` record (id, name, outlet
entity id, position, linked plant ids); the lamp-aware dataclass is
absent from `src/ha_integration/data.py`. -/
structure Lamp where
  lamp_id : String
  name : String
  outlet_entity_id : Json
  position_x : Json
  position_y : Json
  plant_ids : List String
deriving Repr

/-- The lamp-aware `PlantsData` state the handlers in
`ha_integration/__init__.py` operate on. -/
structure LampAwareData where
  plants : List (String × Plant)
  lamps : List (String × Lamp)

/-- Modelled from the spec: the lamp-aware `PlantsData.remove_plant` —
"deleted via remove_* calls which also cascade-unlink from lamps":
pops the plant and, when it existed, removes its id from every lamp's
`plant_ids`.  (The lamp-less `remove_plant` in `src/ha_integration/data.py`
is `removePlant` above.) -/
def removePlantCascade (data : LampAwareData) (plantId : String) :
    Bool × LampAwareData :=
  let r := dictPop data.plants plantId
  match r.1 with
  | none => (false, data)
  | some _ =>
    (true,
     { plants := r.2
       lamps := data.lamps.map (fun e =>
         (e.1, { e.2 with plant_ids := e.2.plant_ids.filter (· ≠ plantId) })) })

/-- Modelled from the spec: `PlantsData.remove_lamp`, a keyed pop like
`remove_plant`/`remove_meter_location`. -/
def removeLamp (data : LampAwareData) (lampId : String) :
    Bool × LampAwareData :=
  let r := dictPop data.lamps lampId
  (r.1.isSome, { data with lamps := r.2 })

/-- Modelled from the spec: `PlantsData.add_lamp` stores a new lamp under
the freshly generated `newId`. -/
def addLamp (data : LampAwareData) (newId name : String)
    (outlet posX posY : Json) (plantIds : List String) : LampAwareData :=
  { data with
    lamps := dictSet data.lamps newId
      { lamp_id := newId, name := name, outlet_entity_id := outlet,
        position_x := posX, position_y := posY, plant_ids := plantIds } }

/-- Modelled from the spec: `PlantsData.link_lamp_plants` replaces the
lamp's linked plant ids (the handler validates the lamp id first). -/
def linkLampPlants (data : LampAwareData) (lampId : String)
    (plantIds : List String) : LampAwareData :=
  match dictGet? data.lamps lampId with
  | none => data
  | some l =>
    { data with lamps := dictSet data.lamps lampId { l with plant_ids := plantIds } }

/-- Modelled from the spec: `PlantsData.set_lamp_outlet`. -/
def setLampOutlet (data : LampAwareData) (lampId : String)
    (outlet : Json) : LampAwareData :=
  match dictGet? data.lamps lampId with
  | none => data
  | some l =>
    { data with lamps := dictSet data.lamps lampId { l with outlet_entity_id := outlet } }

/-- The part of `hass` the service handlers touch: the per-config-entry
stored data (`hass.data[DOMAIN]["entries"]`, keyed by entry id, with the
config-entry list sharing its keys and order). -/
structure Hass where
  entries : List (String × LampAwareData)

/-- A raised `ServiceValidationError`, identified by its translation
key. -/
inductive SVE where
  | entryNotFound
  | plantNotFound
  | lampNotFound
deriving Repr, DecidableEq

/-- What a handler run leaves behind: the (possibly mutated) stored data,
whether `async_save` ran, and the raised `ServiceValidationError`, if
any. -/
structure HandlerOutcome where
  hass : Hass
  saved : Bool
  raised : Option SVE

/-- `_resolve_entry`: an explicit `entry_id` must name a known config
entry; otherwise the first config entry is used and an empty entry list
raises. -/
def resolveEntry (h : Hass) (entryId : Option String) : Except Unit String :=
  match entryId with
  | some e => if dictMem h.entries e then .ok e else .error ()
  | none =>
    match h.entries with
    | [] => .error ()
    | (e, _) :: _ => .ok e

/-- The stored data of a resolved entry (resolution guarantees
presence). -/
def entryData (h : Hass) (e : String) : LampAwareData :=
  (dictGet? h.entries e).getD ⟨[], []⟩

/-- `_handle_remove_plant`: resolve the entry, call
`data.remove_plant` (lamp-aware, spec-modelled), raise `plant_not_found`
when nothing was removed, otherwise save. -/
def handleRemovePlant (h : Hass) (entryId : Option String)
    (plantId : String) : HandlerOutcome :=
  match resolveEntry h entryId with
  | .error _ => ⟨h, false, some .entryNotFound⟩
  | .ok e =>
    let data := entryData h e
    let r := removePlantCascade data plantId
    let h' : Hass := ⟨dictSet h.entries e r.2⟩
    if ¬ r.1 then ⟨h', false, some .plantNotFound⟩
    else ⟨h', true, none⟩

/-- `_handle_remove_lamp`. -/
def handleRemoveLamp (h : Hass) (entryId : Option String)
    (lampId : String) : HandlerOutcome :=
  match resolveEntry h entryId with
  | .error _ => ⟨h, false, some .entryNotFound⟩
  | .ok e =>
    let data := entryData h e
    let r := removeLamp data lampId
    let h' : Hass := ⟨dictSet h.entries e r.2⟩
    if ¬ r.1 then ⟨h', false, some .lampNotFound⟩
    else ⟨h', true, none⟩

/-- `_handle_link_lamp_plants`: filters the requested plant ids to known
plants (silently), raises `lamp_not_found` for an unknown lamp id before
mutating, otherwise links and saves. -/
def handleLinkLampPlants (h : Hass) (entryId : Option String)
    (lampId : String) (plantIds : List String) : HandlerOutcome :=
  match resolveEntry h entryId with
  | .error _ => ⟨h, false, some .entryNotFound⟩
  | .ok e =>
    let data := entryData h e
    let filtered := plantIds.filter (fun pid => dictMem data.plants pid)
    if ¬ dictMem data.lamps lampId then ⟨h, false, some .lampNotFound⟩
    else
      ⟨⟨dictSet h.entries e (linkLampPlants data lampId filtered)⟩, true, none⟩

/-- `_handle_set_lamp_outlet`: raises `lamp_not_found` for an unknown
lamp id before mutating, otherwise sets the outlet and saves. -/
def handleSetLampOutlet (h : Hass) (entryId : Option String)
    (lampId : String) (outlet : Json) : HandlerOutcome :=
  match resolveEntry h entryId with
  | .error _ => ⟨h, false, some .entryNotFound⟩
  | .ok e =>
    let data := entryData h e
    if ¬ dictMem data.lamps lampId then ⟨h, false, some .lampNotFound⟩
    else
      ⟨⟨dictSet h.entries e (setLampOutlet data lampId outlet)⟩, true, none⟩

/-- Does entry resolution fail: an explicit id names no entry, or no
id was given and no entry exists. -/
def entryResolutionFails (h : Hass) (entryId : Option String) : Prop :=
  match entryId with
  | some e => dictMem h.entries e = false
  | none => h.entries = []

/-- The entry id `_resolve_entry` picks when it succeeds. -/
def resolvedEntryId (h : Hass) (entryId : Option String) : String :=
  match entryId with
  | some e => e
  | none => (dictKeys h.entries).headD ""

/-! ## Auxiliary definitions used by the statements below -/

/-- The raw `fromisoformat` outcome on a history entry's timestamp value
(after the `Z → +00:00` rewrite and the emptiness guard): what both
`_parse_timestamp` copies agree on before attaching a default timezone. -/
def rawParseOfEntry (e : Json) : Option (NaiveDatetime × Option Int) :=
  match entryTimestampRaw e with
  | .str s => if s = "" then none else fromisoformat (pyReplaceChar s 'Z' "+00:00")
  | _ => none

/-- Does this entry's timestamp parse to an offset-free (naive) datetime —
the only case where the two `_parse_timestamp` copies differ. -/
def isNaiveParse (e : Json) : Bool :=
  match rawParseOfEntry e with
  | some (_, none) => true
  | _ => false

/-- A state record as `/api/states` returns it: entity id, friendly name,
state. -/
def mkStateRecord (entityId friendly state : String) : Json :=
  .obj [("entity_id", .str entityId),
        ("state", .str state),
        ("attributes", .obj [("friendly_name", .str friendly)])]

/-- A sample stored plant used by concrete witnesses. -/
def samplePlant : Plant :=
  { plant_id := "p1", name := .str "Rose", moisture_entity_id := .null,
    humidity_entity_id := .null, air_temperature_entity_id := .null,
    light_entity_id := .null, water_entity_id := .null,
    humidifier_entity_id := .null, watering_frequency_recommendation := .null,
    soil_moisture_recommendation := .null,
    air_temperature_recommendation := .null,
    air_humidity_recommendation := .null, other_recommendations := .null,
    todo_list := .null }

/-- A plant stored under a map key (`"a"`) different from its own
`plant_id` (`"b"`) — the storage round-trip re-keys it. -/
def mismatchedPlant : Plant :=
  { plant_id := "b", name := .str "x", moisture_entity_id := .null,
    humidity_entity_id := .null, air_temperature_entity_id := .null,
    light_entity_id := .null, water_entity_id := .null,
    humidifier_entity_id := .null, watering_frequency_recommendation := .null,
    soil_moisture_recommendation := .null,
    air_temperature_recommendation := .null,
    air_humidity_recommendation := .null, other_recommendations := .null,
    todo_list := .null }

/-- A sample stored lamp linked to `samplePlant`. -/
def sampleLamp : Lamp :=
  { lamp_id := "l1", name := "Grow lamp", outlet_entity_id := .null,
    position_x := .null, position_y := .null, plant_ids := ["p1"] }

/-! ## Dictionary lemmas -/

theorem dictMem_cons {α : Type} (k' : String) (v' : α)
    (tl : List (String × α)) (k : String) :
    dictMem ((k', v') :: tl) k = (decide (k' = k) || dictMem tl k) := by
  simp [dictMem]

theorem dictGet?_cons {α : Type} (k' : String) (v' : α)
    (tl : List (String × α)) (k : String) :
    dictGet? ((k', v') :: tl) k =
      if k' = k then some v' else dictGet? tl k := by
  by_cases hk : k' = k <;> simp [dictGet?, List.find?, hk]

theorem dictPop_not_mem {α : Type} (l : List (String × α)) (k : String)
    (h : dictMem l k = false) : dictPop l k = (none, l) := by
  induction l with
  | nil => rfl
  | cons hd tl ih =>
    cases hd with
    | mk k' v' =>
      rw [dictMem_cons] at h
      have h2 := Bool.or_eq_false_iff.mp h
      have hk : k' ≠ k := by simpa using h2.1
      simp [dictPop, hk, ih h2.2]

theorem dictPop_fst_isSome {α : Type} (l : List (String × α)) (k : String) :
    (dictPop l k).1.isSome = dictMem l k := by
  induction l with
  | nil => rfl
  | cons hd tl ih =>
    cases hd with
    | mk k' v' =>
      rw [dictMem_cons]
      by_cases hk : k' = k <;> simp [dictPop, hk, ih]

theorem dictGet?_dictSet_self {α : Type} (l : List (String × α)) (k : String)
    (v : α) : dictGet? (dictSet l k v) k = some v := by
  induction l with
  | nil => simp [dictSet, dictGet?, List.find?]
  | cons hd tl ih =>
    cases hd with
    | mk k' v' =>
      by_cases hk : k' = k <;> simp [dictSet, hk, dictGet?_cons, ih]

theorem dictSet_get_self {α : Type} (l : List (String × α)) (k : String)
    (v : α) (h : dictGet? l k = some v) : dictSet l k v = l := by
  induction l with
  | nil => simp [dictGet?] at h
  | cons hd tl ih =>
    cases hd with
    | mk k' v' =>
      rw [dictGet?_cons] at h
      by_cases hk : k' = k
      · rw [if_pos hk] at h
        cases h
        simp [dictSet, hk]
      · rw [if_neg hk] at h
        simp [dictSet, hk, ih h]

theorem dictSet_fresh {α : Type} (l : List (String × α)) (k : String)
    (v : α) (h : dictMem l k = false) : dictSet l k v = l ++ [(k, v)] := by
  induction l with
  | nil => rfl
  | cons hd tl ih =>
    cases hd with
    | mk k' v' =>
      rw [dictMem_cons] at h
      have h2 := Bool.or_eq_false_iff.mp h
      have hk : k' ≠ k := by simpa using h2.1
      simp [dictSet, hk, ih h2.2]

theorem dictMem_iff_get {α : Type} (l : List (String × α)) (k : String) :
    dictMem l k = true ↔ (dictGet? l k).isSome := by
  induction l with
  | nil => simp [dictMem, dictGet?]
  | cons hd tl ih =>
    cases hd with
    | mk k' v' =>
      rw [dictMem_cons, dictGet?_cons]
      by_cases hk : k' = k <;> simp [hk, ih]

theorem dictKeys_dictSet_fresh {α : Type} (l : List (String × α))
    (k : String) (v : α) (h : dictMem l k = false) :
    dictKeys (dictSet l k v) = dictKeys l ++ [k] := by
  rw [dictSet_fresh l k v h]
  simp [dictKeys]

/-- `C7` and others need: a successful `ha_request` implies the request
was issued. -/
theorem haRequest_error_none_requested (env : Env) (o : HttpOutcome)
    (h : (haRequest env o).error = none) : (haRequest env o).requested = true := by
  unfold haRequest at *
  cases hc : getHaConfig env with
  | none => simp [hc] at h
  | some cfg =>
    cases o with
    | error e => simp [hc] at h
    | ok r =>
      by_cases hs : r.statusCode ≥ 400
      · simp [hc, hs] at h ⊢
      · cases hb : r.body <;> simp [hc, hs, hb] at h ⊢

/-! ## C7: environment variables -/

/-- C7 (corrected): only `HA_TOKEN` is required.  When `HA_TOKEN` is unset
or empty, `ha_request` makes no HTTP request and returns the fixed error
triple — and `_get_ha_config` fails exactly when `HA_TOKEN` is unset or
empty (`HA_URL` never causes a failure; it has a default). -/
theorem ha_token_required :
    (∀ (env : Env) (outcome : HttpOutcome), env.haToken.getD "" = "" →
      (haRequest env outcome).requested = false ∧
      (haRequest env outcome).error = some "HA_TOKEN is not set" ∧
      (haRequest env outcome).data = none) ∧
    (∀ env : Env, getHaConfig env = none ↔ env.haToken.getD "" = "") := by
  constructor
  · intro env outcome h
    have hc : getHaConfig env = none := by
      simp [getHaConfig, h]
    simp [haRequest, hc]
  · intro env
    by_cases h : env.haToken.getD "" = "" <;> simp [getHaConfig, h]

/-- Witness for `ha_token_required` at a concrete unset-token
environment. -/
theorem ha_token_required_witness :
    (haRequest ⟨some "http://ha", none⟩
        (.ok ⟨200, "", .jsonContent (.arr [])⟩)).requested = false ∧
    (haRequest ⟨some "http://ha", none⟩
        (.ok ⟨200, "", .jsonContent (.arr [])⟩)).error =
      some "HA_TOKEN is not set" := by
  have h := ha_token_required.1 ⟨some "http://ha", none⟩
    (.ok ⟨200, "", .jsonContent (.arr [])⟩) rfl
  exact ⟨h.1, h.2.1⟩

/-- C7 counterexample: with `HA_URL` unset but `HA_TOKEN` set, the claim
"if either variable is unset the tool makes no HTTP request and returns
an error result" fails — the default base URL is used, the request is
issued, and no error is reported. -/
theorem ha_url_unset_still_requests :
    getHaConfig ⟨none, some "token"⟩ =
      some ("http://homeassistant.local:8123", "token") ∧
    (haRequest ⟨none, some "token"⟩
        (.ok ⟨200, "[]", .jsonContent (.arr [])⟩)).requested = true ∧
    (haRequest ⟨none, some "token"⟩
        (.ok ⟨200, "[]", .jsonContent (.arr [])⟩)).error = none := by
  exact ⟨rfl, rfl, rfl⟩

/-! ## C6: case-insensitive plant-name matching -/

/-- C6: both match functions used by the watering tools.
`match_plant_name`: an exact match takes precedence and is returned; if
any name matches the stripped identifier ignoring case, such a name is
returned; `None` comes back exactly when the stripped identifier is
empty or no name matches even ignoring case.  `_match_entry`: an exact
`entry_id` match takes precedence; otherwise a case-insensitively
matching title is returned when one exists; `None` comes back exactly
when the stripped identifier is empty or no entry matches by exact
`entry_id` or case-insensitive title. -/
theorem match_functions_case_insensitive :
    (∀ (names : List String) (identifier : String),
      (pyStrip identifier ≠ "" → pyStrip identifier ∈ names →
        matchPlantName names identifier = some (pyStrip identifier)) ∧
      (pyStrip identifier ≠ "" →
        (∃ n ∈ names, pyLower n = pyLower (pyStrip identifier)) →
        ∃ n, matchPlantName names identifier = some n ∧ n ∈ names ∧
          pyLower n = pyLower (pyStrip identifier)) ∧
      (matchPlantName names identifier = none ↔
        (pyStrip identifier = "" ∨
          ∀ n ∈ names, pyLower n ≠ pyLower (pyStrip identifier)))) ∧
    (∀ (entries : List Json) (identifier : String),
      (pyStrip identifier ≠ "" →
        (∃ e ∈ entries, (e.get "entry_id").isStr (pyStrip identifier) = true) →
        ∃ e, matchEntry entries identifier = some e ∧ e ∈ entries ∧
          (e.get "entry_id").isStr (pyStrip identifier) = true) ∧
      (pyStrip identifier ≠ "" →
        (∀ e ∈ entries, (e.get "entry_id").isStr (pyStrip identifier) = false) →
        (∃ e ∈ entries,
          pyLower (pyToStr (e.getD "title" (.str ""))) =
            pyLower (pyStrip identifier)) →
        ∃ e, matchEntry entries identifier = some e ∧ e ∈ entries ∧
          pyLower (pyToStr (e.getD "title" (.str ""))) =
            pyLower (pyStrip identifier)) ∧
      (matchEntry entries identifier = none ↔
        (pyStrip identifier = "" ∨
          ∀ e ∈ entries, (e.get "entry_id").isStr (pyStrip identifier) = false ∧
            pyLower (pyToStr (e.getD "title" (.str ""))) ≠
              pyLower (pyStrip identifier)))) := by
  constructor
  · intro names identifier
    refine ⟨?_, ?_, ?_⟩
    · intro hne hmem
      have hfind : names.find? (fun n => n = pyStrip identifier) ≠ none := by
        rw [Ne, List.find?_eq_none]
        push_neg
        exact ⟨_, hmem, by simp⟩
      rcases hsome : names.find? (fun n => n = pyStrip identifier) with _ | n
      · exact absurd hsome hfind
      · have := List.find?_some hsome
        have hn : n = pyStrip identifier := by simpa using this
        subst hn
        simp [matchPlantName, hne, hsome]
    · intro hne hex
      rcases hsome : names.find? (fun n => n = pyStrip identifier) with _ | n
      · have hfind : (names.find?
            (fun n => pyLower n = pyLower (pyStrip identifier))).isSome := by
          rw [List.find?_isSome]
          obtain ⟨n, hn, hl⟩ := hex
          exact ⟨n, hn, by simpa using hl⟩
        rcases hci : names.find?
            (fun n => pyLower n = pyLower (pyStrip identifier)) with _ | n
        · rw [hci] at hfind
          simp at hfind
        · refine ⟨n, ?_, List.mem_of_find?_eq_some hci,
            by simpa using List.find?_some hci⟩
          simp [matchPlantName, hne, hsome, hci]
      · have hn : n = pyStrip identifier := by simpa using List.find?_some hsome
        refine ⟨n, ?_, List.mem_of_find?_eq_some hsome, by rw [hn]⟩
        simp [matchPlantName, hne, hsome]
    · constructor
      · intro hnone
        by_cases hne : pyStrip identifier = ""
        · exact Or.inl hne
        · refine Or.inr ?_
          rcases hsome : names.find? (fun n => n = pyStrip identifier) with _ | n
          · simp only [matchPlantName, hne, if_neg hne, hsome] at hnone
            intro n hn
            have := List.find?_eq_none.mp hnone n hn
            simpa using this
          · simp [matchPlantName, hne, hsome] at hnone
      · intro h
        rcases h with h | h
        · simp [matchPlantName, h]
        · by_cases hne : pyStrip identifier = ""
          · simp [matchPlantName, hne]
          · rcases hsome : names.find? (fun n => n = pyStrip identifier) with _ | n
            · have hci : names.find?
                  (fun n => pyLower n = pyLower (pyStrip identifier)) = none := by
                rw [List.find?_eq_none]
                intro n hn
                simpa using h n hn
              simp [matchPlantName, hne, hsome, hci]
            · have hn : n = pyStrip identifier := by
                simpa using List.find?_some hsome
              have hmem := List.mem_of_find?_eq_some hsome
              exact absurd rfl (hn ▸ h n hmem)
  · intro entries identifier
    refine ⟨?_, ?_, ?_⟩
    · intro hne hex
      have hfind : (entries.find?
          (fun e => (e.get "entry_id").isStr (pyStrip identifier))).isSome := by
        rw [List.find?_isSome]
        obtain ⟨e, he, hid⟩ := hex
        exact ⟨e, he, by simpa using hid⟩
      rcases hsome : entries.find?
          (fun e => (e.get "entry_id").isStr (pyStrip identifier)) with _ | e
      · rw [hsome] at hfind
        simp at hfind
      · refine ⟨e, ?_, List.mem_of_find?_eq_some hsome,
          by simpa using List.find?_some hsome⟩
        simp [matchEntry, hne, hsome]
    · intro hne hnoid hex
      have hsome : entries.find?
          (fun e => (e.get "entry_id").isStr (pyStrip identifier)) = none := by
        rw [List.find?_eq_none]
        intro e he
        simp [hnoid e he]
      have hfind : (entries.find?
          (fun e => pyLower (pyToStr (e.getD "title" (.str ""))) =
            pyLower (pyStrip identifier))).isSome := by
        rw [List.find?_isSome]
        obtain ⟨e, he, ht⟩ := hex
        exact ⟨e, he, by simpa using ht⟩
      rcases hci : entries.find?
          (fun e => pyLower (pyToStr (e.getD "title" (.str ""))) =
            pyLower (pyStrip identifier)) with _ | e
      · rw [hci] at hfind
        simp at hfind
      · refine ⟨e, ?_, List.mem_of_find?_eq_some hci,
          by simpa using List.find?_some hci⟩
        simp [matchEntry, hne, hsome, hci]
    · constructor
      · intro hnone
        by_cases hne : pyStrip identifier = ""
        · exact Or.inl hne
        · refine Or.inr ?_
          rcases hsome : entries.find?
              (fun e => (e.get "entry_id").isStr (pyStrip identifier)) with _ | e
          · simp only [matchEntry, hne, if_neg hne, hsome] at hnone
            intro e he
            refine ⟨by simpa using List.find?_eq_none.mp hsome e he, ?_⟩
            have := List.find?_eq_none.mp hnone e he
            simpa using this
          · simp [matchEntry, hne, hsome] at hnone
      · intro h
        rcases h with h | h
        · simp [matchEntry, h]
        · by_cases hne : pyStrip identifier = ""
          · simp [matchEntry, hne]
          · have hsome : entries.find?
                (fun e => (e.get "entry_id").isStr (pyStrip identifier)) = none := by
              rw [List.find?_eq_none]
              intro e he
              simp [(h e he).1]
            have hci : entries.find?
                (fun e => pyLower (pyToStr (e.getD "title" (.str ""))) =
                  pyLower (pyStrip identifier)) = none := by
              rw [List.find?_eq_none]
              intro e he
              simpa using (h e he).2
            simp [matchEntry, hne, hsome, hci]

/-- Witness for `match_functions_case_insensitive`: `"rose "` matches the
stored name `"Rose"` case-insensitively, and an entry with title
`"Rose"` is matched by `"ROSE"`. -/
theorem match_functions_case_insensitive_witness :
    (∃ n, matchPlantName ["Tulip", "Rose"] "rose " = some n ∧
      n ∈ ["Tulip", "Rose"] ∧ pyLower n = pyLower (pyStrip "rose ")) ∧
    (∃ e, matchEntry [Json.obj [("entry_id", .str "e1"), ("title", .str "Rose")]]
        "ROSE" = some e ∧
      e ∈ [Json.obj [("entry_id", .str "e1"), ("title", .str "Rose")]] ∧
      pyLower (pyToStr (e.getD "title" (.str ""))) = pyLower (pyStrip "ROSE")) := by
  constructor
  · exact (match_functions_case_insensitive.1 ["Tulip", "Rose"] "rose ").2.1
      (by decide) ⟨"Rose", by decide, by decide⟩
  · exact (match_functions_case_insensitive.2
        [Json.obj [("entry_id", .str "e1"), ("title", .str "Rose")]] "ROSE").2.1
      (by decide) (by intro e he; simp at he; subst he; rfl)
      ⟨Json.obj [("entry_id", .str "e1"), ("title", .str "Rose")], by simp, by rfl⟩

/-! ## C1: auto-watering event pairs -/

theorem buildAutoGo_skip (p : String → Option AwareDatetime) (kind : String)
    (e : Json) (rest : List Json) (cur : Option AwareDatetime)
    (h : parseEntryTs p e = none) :
    buildAutoGo p kind (e :: rest) cur = buildAutoGo p kind rest cur := by
  simp [buildAutoGo, h]

theorem buildAutoGo_skip_all (p : String → Option AwareDatetime) (kind : String)
    (mid l : List Json) (cur : Option AwareDatetime)
    (h : ∀ e ∈ mid, parseEntryTs p e = none) :
    buildAutoGo p kind (mid ++ l) cur = buildAutoGo p kind l cur := by
  induction mid with
  | nil => rfl
  | cons e rest ih =>
    rw [List.cons_append, buildAutoGo_skip p kind e _ cur (h e (by simp)),
      ih (fun e he => h e (by simp [he]))]

theorem entryTimestampRaw_mkHistEntry (s v : String) (hv : v ≠ "") :
    entryTimestampRaw (mkHistEntry s v) = .str v := by
  simp [entryTimestampRaw, mkHistEntry, Json.get, List.find?, pyOr, pyTruthy, hv]

theorem parseEntryTs_mkHistEntry (p : String → Option AwareDatetime)
    (s v : String) (hv : v ≠ "") :
    parseEntryTs p (mkHistEntry s v) = p v := by
  simp [parseEntryTs, entryTimestampRaw_mkHistEntry s v hv]

theorem mkHistEntry_state (s v : String) :
    (mkHistEntry s v).get "state" = .str s := by
  simp [mkHistEntry, Json.get, List.find?]

/-- The generic on/off-pair shape: from a state with no open interval, an
`"on"` transition followed (across unparseable entries) by a non-`"on"`
transition emits exactly the one closed event for that pair and
continues with no open interval. -/
theorem buildAutoGo_pair (p : String → Option AwareDatetime) (kind : String)
    (v0 v1 s : String) (t0 t1 : AwareDatetime) (mid post : List Json)
    (hv0 : v0 ≠ "") (hv1 : v1 ≠ "")
    (h0 : p v0 = some t0) (h1 : p v1 = some t1) (hs : s ≠ "on")
    (hmid : ∀ e ∈ mid, parseEntryTs p e = none) :
    buildAutoGo p kind (mkHistEntry "on" v0 :: (mid ++ mkHistEntry s v1 :: post)) none
      = closedEvent kind t0 t1 :: buildAutoGo p kind post none := by
  have hp0 : parseEntryTs p (mkHistEntry "on" v0) = some t0 := by
    rw [parseEntryTs_mkHistEntry p "on" v0 hv0, h0]
  have hp1 : parseEntryTs p (mkHistEntry s v1) = some t1 := by
    rw [parseEntryTs_mkHistEntry p s v1 hv1, h1]
  have hstep : buildAutoGo p kind (mkHistEntry "on" v0 :: (mid ++ mkHistEntry s v1 :: post)) none
      = buildAutoGo p kind (mid ++ mkHistEntry s v1 :: post) (some t0) := by
    simp [buildAutoGo, hp0, mkHistEntry_state, Json.isStr]
  rw [hstep, buildAutoGo_skip_all p kind mid _ _ hmid]
  simp [buildAutoGo, hp1, mkHistEntry_state, Json.isStr, hs]

theorem toEpochMicros_decomp (dt : AwareDatetime) :
    ∃ k : Int, toEpochMicros dt = k * 1000000 + dt.naive.microsecond := by
  refine ⟨daysFromCivil dt.naive.year dt.naive.month dt.naive.day * 86400
    + (dt.naive.hour * 3600 + dt.naive.minute * 60 + dt.naive.second : Nat)
    - dt.offsetMinutes * 60, ?_⟩
  simp only [toEpochMicros]
  push_cast
  ring

/-- C1: a history list whose entries form a transition to `"on"` at a
parseable timestamp `t0` followed — across entries with unparseable
timestamps only — by a transition to a non-`"on"` state at parseable
`t1` makes `_build_auto_watering_events` emit exactly one event for the
pair: type `"auto"`, start `t0`, end `t1`, and `duration_seconds` equal
to the whole number of seconds in `t1 - t0`
(`int((t1 - t0).total_seconds())`, which is exactly the second count
whenever the sub-second parts agree). -/
theorem auto_watering_single_event_per_pair
    (v0 v1 s : String) (t0 t1 : AwareDatetime) (mid post : List Json)
    (h0 : parseTimestampPC v0 = some t0)
    (h1 : parseTimestampPC v1 = some t1)
    (hs : s ≠ "on")
    (hmid : ∀ e ∈ mid, parseEntryTs parseTimestampPC e = none) :
    buildAutoWateringEventsPC
        (mkHistEntry "on" v0 :: (mid ++ mkHistEntry s v1 :: post)) "auto"
      = closedEvent "auto" t0 t1 ::
          buildAutoGo parseTimestampPC "auto" post none
    ∧ (closedEvent "auto" t0 t1).get "type" = .str "auto"
    ∧ (closedEvent "auto" t0 t1).get "start" = .str (isoformat t0)
    ∧ (closedEvent "auto" t0 t1).get "end" = .str (isoformat t1)
    ∧ (closedEvent "auto" t0 t1).get "duration_seconds"
        = .num ((toEpochMicros t1 - toEpochMicros t0).tdiv 1000000)
    ∧ (t1.naive.microsecond = t0.naive.microsecond →
        ((toEpochMicros t1 - toEpochMicros t0).tdiv 1000000) * 1000000
          = toEpochMicros t1 - toEpochMicros t0) := by
  have hv0 : v0 ≠ "" := by
    intro h
    rw [h] at h0
    simp [parseTimestampPC] at h0
  have hv1 : v1 ≠ "" := by
    intro h
    rw [h] at h1
    simp [parseTimestampPC] at h1
  refine ⟨buildAutoGo_pair parseTimestampPC "auto" v0 v1 s t0 t1 mid post
    hv0 hv1 h0 h1 hs hmid, rfl, rfl, rfl, rfl, ?_⟩
  intro hus
  obtain ⟨k1, hk1⟩ := toEpochMicros_decomp t1
  obtain ⟨k0, hk0⟩ := toEpochMicros_decomp t0
  have hdiff : toEpochMicros t1 - toEpochMicros t0 = (k1 - k0) * 1000000 := by
    rw [hk1, hk0, hus]
    ring
  rw [hdiff, Int.mul_tdiv_cancel _ (by norm_num)]

/-- Witness for `auto_watering_single_event_per_pair`: a switch toggling
on at 10:00:00 UTC and off at 10:00:05 UTC yields one auto event of 5
seconds. -/
theorem auto_watering_single_event_per_pair_witness :
    buildAutoWateringEventsPC
        [mkHistEntry "on" "2024-05-01T10:00:00+00:00",
         mkHistEntry "off" "2024-05-01T10:00:05+00:00"] "auto"
      = [closedEvent "auto" ⟨⟨2024, 5, 1, 10, 0, 0, 0⟩, 0⟩
          ⟨⟨2024, 5, 1, 10, 0, 5, 0⟩, 0⟩]
    ∧ (closedEvent "auto" ⟨⟨2024, 5, 1, 10, 0, 0, 0⟩, 0⟩
        ⟨⟨2024, 5, 1, 10, 0, 5, 0⟩, 0⟩).get "duration_seconds" = .num 5 := by
  have h := auto_watering_single_event_per_pair
    "2024-05-01T10:00:00+00:00" "2024-05-01T10:00:05+00:00" "off"
    ⟨⟨2024, 5, 1, 10, 0, 0, 0⟩, 0⟩ ⟨⟨2024, 5, 1, 10, 0, 5, 0⟩, 0⟩ [] []
    (by rfl) (by rfl) (by decide) (by simp)
  refine ⟨by simpa using h.1, ?_⟩
  rw [h.2.2.2.2.1]
  rfl

/-! ## C10: the two `_build_auto_watering_events` copies agree on
timezone-aware input -/

theorem parseTimestamp_agree (s : String)
    (h : ∀ p : NaiveDatetime,
      fromisoformat (pyReplaceChar s 'Z' "+00:00") ≠ some (p, none)) :
    parseTimestampPC s = parseTimestampAN s := by
  by_cases hs : s = ""
  · simp [parseTimestampPC, parseTimestampAN, hs]
  · rcases hf : fromisoformat (pyReplaceChar s 'Z' "+00:00") with _ | ⟨p, off⟩
    · simp [parseTimestampPC, parseTimestampAN, hs, hf]
    · cases off with
      | none => exact absurd hf (h p)
      | some o => simp [parseTimestampPC, parseTimestampAN, hs, hf]

theorem parseEntryTs_agree (e : Json) (h : isNaiveParse e = false) :
    parseEntryTs parseTimestampPC e = parseEntryTs parseTimestampAN e := by
  unfold parseEntryTs
  rcases hr : entryTimestampRaw e with _ | _ | _ | s | _ | _ <;> try rfl
  apply parseTimestamp_agree
  intro p hp
  rw [isNaiveParse, rawParseOfEntry, hr] at h
  by_cases hs : s = ""
  · rw [hs] at hp
    rw [show fromisoformat (pyReplaceChar "" 'Z' "+00:00") = none from rfl] at hp
    exact Option.noConfusion hp
  · simp only [hs, if_false, if_neg hs] at h
    rw [hp] at h
    simp at h

theorem buildAutoGo_congr (p1 p2 : String → Option AwareDatetime)
    (kind : String) (entries : List Json)
    (h : ∀ e ∈ entries, parseEntryTs p1 e = parseEntryTs p2 e) :
    ∀ cur, buildAutoGo p1 kind entries cur = buildAutoGo p2 kind entries cur := by
  induction entries with
  | nil => intro cur; cases cur <;> rfl
  | cons e rest ih =>
    intro cur
    have he := h e (by simp)
    have ihr := ih (fun x hx => h x (by simp [hx]))
    rcases hp : parseEntryTs p2 e with _ | t
    · rw [buildAutoGo_skip p1 kind e rest cur (he.trans hp),
        buildAutoGo_skip p2 kind e rest cur hp, ihr cur]
    · simp only [buildAutoGo, he, hp]
      by_cases hon : (e.get "state").isStr "on" = true
      · cases cur <;> simp [hon, ihr]
      · cases cur <;> simp [hon, ihr]

/-- C10: on history entries none of whose timestamps parses to an
offset-free (`tzinfo`-less) datetime — in particular on ISO-8601 strings
with an explicit offset or `Z` — the `plant_care.py` and `analyze.py`
copies of `_build_auto_watering_events` return equal event lists; the
copies differ only in the timezone their `_parse_timestamp` helpers
attach to offset-free timestamps (UTC versus `America/Los_Angeles`). -/
theorem build_auto_watering_events_copies_agree
    (entries : List Json) (kind : String)
    (h : ∀ e ∈ entries, isNaiveParse e = false) :
    buildAutoWateringEventsPC entries kind
      = buildAutoWateringEventsAN entries kind := by
  unfold buildAutoWateringEventsPC buildAutoWateringEventsAN
  exact buildAutoGo_congr parseTimestampPC parseTimestampAN kind entries
    (fun e he => parseEntryTs_agree e (h e he)) none

/-- Witness for `build_auto_watering_events_copies_agree` on a concrete
`Z`-suffixed pair of entries. -/
theorem build_auto_watering_events_copies_agree_witness :
    buildAutoWateringEventsPC
        [mkHistEntry "on" "2024-05-01T10:00:00Z",
         mkHistEntry "off" "2024-05-01T10:00:05Z"] "auto"
      = buildAutoWateringEventsAN
        [mkHistEntry "on" "2024-05-01T10:00:00Z",
         mkHistEntry "off" "2024-05-01T10:00:05Z"] "auto" := by
  exact build_auto_watering_events_copies_agree _ "auto" (by decide)

/-! ## C9: storage round-trip -/

theorem dictMem_append {α : Type} (l1 l2 : List (String × α)) (k : String) :
    dictMem (l1 ++ l2) k = (dictMem l1 k || dictMem l2 k) := by
  simp [dictMem]

theorem parseRawPlantsGo_save_cons (p : Plant) (rest : List Json)
    (acc : List (String × Plant)) (hid : p.plant_id ≠ "")
    (hname : pyTruthy p.name = true) :
    parseRawPlantsGo (plantToJson p :: rest) acc
      = parseRawPlantsGo rest (dictSet acc p.plant_id p) := by
  simp [parseRawPlantsGo, plantToJson, Json.get, List.find?, pyToStr, pyOr,
    hname, hid]

theorem parseRawPlantsGo_vals (m : List (String × Plant)) :
    ∀ acc : List (String × Plant),
    (∀ e ∈ m, (e.2 : Plant).plant_id = e.1) →
    (∀ e ∈ m, e.1 ≠ "") →
    (∀ e ∈ m, pyTruthy (e.2 : Plant).name = true) →
    (dictKeys m).Nodup →
    (∀ k ∈ dictKeys m, dictMem acc k = false) →
    parseRawPlantsGo ((dictVals m).map plantToJson) acc = acc ++ m := by
  induction m with
  | nil =>
    intro acc _ _ _ _ _
    simp [dictVals, parseRawPlantsGo]
  | cons e rest ih =>
    intro acc hcons hne hname hnodup hdisj
    obtain ⟨k, p⟩ := e
    have hpk : p.plant_id = k := hcons (k, p) (by simp)
    have hk : k ≠ "" := hne (k, p) (by simp)
    have hn : pyTruthy p.name = true := hname (k, p) (by simp)
    have hmem : dictMem acc k = false := hdisj k (by simp [dictKeys])
    rw [show (dictVals ((k, p) :: rest)).map plantToJson
        = plantToJson p :: (dictVals rest).map plantToJson from rfl,
      parseRawPlantsGo_save_cons p _ acc (hpk ▸ hk) hn, hpk,
      dictSet_fresh acc k p hmem,
      ih (acc ++ [(k, p)]) (fun e he => hcons e (by simp [he]))
        (fun e he => hne e (by simp [he]))
        (fun e he => hname e (by simp [he]))
        (List.Nodup.of_cons hnodup)
        ?_]
    · simp
    · intro k2 hk2
      rw [dictMem_append]
      have h1 : dictMem acc k2 = false :=
        hdisj k2 (List.mem_cons_of_mem _ hk2)
      have h2 : k2 ≠ k := by
        intro hEq
        subst hEq
        exact (List.nodup_cons.mp hnodup).1 hk2
      have h3 : ¬ (k = k2) := fun hh => h2 hh.symm
      rw [h1]
      simp [dictMem, h3]

theorem parseRawMetersGo_save_cons (l : MeterLocation) (rest : List Json)
    (acc : List (String × MeterLocation)) (hid : l.location_id ≠ "")
    (hname : pyTruthy l.name = true) :
    parseRawMetersGo (meterToJson l :: rest) acc
      = parseRawMetersGo rest (dictSet acc l.location_id l) := by
  simp [parseRawMetersGo, meterToJson, Json.get, List.find?, pyToStr, pyOr,
    hname, hid]

theorem parseRawMetersGo_vals (m : List (String × MeterLocation)) :
    ∀ acc : List (String × MeterLocation),
    (∀ e ∈ m, (e.2 : MeterLocation).location_id = e.1) →
    (∀ e ∈ m, e.1 ≠ "") →
    (∀ e ∈ m, pyTruthy (e.2 : MeterLocation).name = true) →
    (dictKeys m).Nodup →
    (∀ k ∈ dictKeys m, dictMem acc k = false) →
    parseRawMetersGo ((dictVals m).map meterToJson) acc = acc ++ m := by
  induction m with
  | nil =>
    intro acc _ _ _ _ _
    simp [dictVals, parseRawMetersGo]
  | cons e rest ih =>
    intro acc hcons hne hname hnodup hdisj
    obtain ⟨k, l⟩ := e
    have hpk : l.location_id = k := hcons (k, l) (by simp)
    have hk : k ≠ "" := hne (k, l) (by simp)
    have hn : pyTruthy l.name = true := hname (k, l) (by simp)
    have hmem : dictMem acc k = false := hdisj k (by simp [dictKeys])
    rw [show (dictVals ((k, l) :: rest)).map meterToJson
        = meterToJson l :: (dictVals rest).map meterToJson from rfl,
      parseRawMetersGo_save_cons l _ acc (hpk ▸ hk) hn, hpk,
      dictSet_fresh acc k l hmem,
      ih (acc ++ [(k, l)]) (fun e he => hcons e (by simp [he]))
        (fun e he => hne e (by simp [he]))
        (fun e he => hname e (by simp [he]))
        (List.Nodup.of_cons hnodup)
        ?_]
    · simp
    · intro k2 hk2
      rw [dictMem_append]
      have h1 : dictMem acc k2 = false :=
        hdisj k2 (List.mem_cons_of_mem _ hk2)
      have h2 : k2 ≠ k := by
        intro hEq
        subst hEq
        exact (List.nodup_cons.mp hnodup).1 hk2
      have h3 : ¬ (k = k2) := fun hh => h2 hh.symm
      rw [h1]
      simp [dictMem, h3]

/-- C9 (amended): the storage round-trip re-keys every record by its own
id, so `_parse_raw ∘ async_save` is the identity on maps whose records
are stored under their own non-empty ids (with unique keys, as in any
dict) and have truthy names — for `PlantsData` and
`MeterLocationsData` alike. -/
theorem storage_roundtrip_self_keyed :
    (∀ m : List (String × Plant),
      plantsConsistent m →
      (∀ e ∈ m, e.1 ≠ "") →
      (∀ e ∈ m, pyTruthy (e.2 : Plant).name = true) →
      (dictKeys m).Nodup →
      parseRawPlants (savePayloadPlants m) = m) ∧
    (∀ m : List (String × MeterLocation),
      metersConsistent m →
      (∀ e ∈ m, e.1 ≠ "") →
      (∀ e ∈ m, pyTruthy (e.2 : MeterLocation).name = true) →
      (dictKeys m).Nodup →
      parseRawMeters (savePayloadMeters m) = m) := by
  constructor
  · intro m hcons hne hname hnodup
    have h := parseRawPlantsGo_vals m [] hcons hne hname hnodup (fun k hk => rfl)
    simpa [parseRawPlants, savePayloadPlants, Json.getD, List.find?] using h
  · intro m hcons hne hname hnodup
    have h := parseRawMetersGo_vals m [] hcons hne hname hnodup (fun k hk => rfl)
    simpa [parseRawMeters, savePayloadMeters, Json.getD, List.find?] using h

/-- Witness for `storage_roundtrip_self_keyed` on a one-plant and a
one-location map. -/
theorem storage_roundtrip_self_keyed_witness :
    parseRawPlants (savePayloadPlants [("p1", samplePlant)])
      = [("p1", samplePlant)] ∧
    parseRawMeters (savePayloadMeters
        [("m1", ⟨"m1", .str "Kitchen", .null, .null, .null, .null⟩)])
      = [("m1", ⟨"m1", .str "Kitchen", .null, .null, .null, .null⟩)] := by
  constructor
  · exact storage_roundtrip_self_keyed.1 [("p1", samplePlant)]
      (by intro e he; simp at he; subst he; decide)
      (by intro e he; simp at he; subst he; decide)
      (by intro e he; simp at he; subst he; decide)
      (by decide)
  · exact storage_roundtrip_self_keyed.2
      [("m1", ⟨"m1", .str "Kitchen", .null, .null, .null, .null⟩)]
      (by intro e he; simp at he; subst he; decide)
      (by intro e he; simp at he; subst he; decide)
      (by intro e he; simp at he; subst he; decide)
      (by decide)

/-- C9 counterexample: a plant with a non-empty `plant_id` and a
non-empty name, stored under a key that differs from its `plant_id`,
does not survive the round-trip — `_parse_raw` keys it by the id field,
not by the original map key. -/
theorem storage_roundtrip_key_mismatch :
    mismatchedPlant.plant_id ≠ "" ∧
    pyTruthy mismatchedPlant.name = true ∧
    parseRawPlants (savePayloadPlants [("a", mismatchedPlant)])
      ≠ [("a", mismatchedPlant)] := by
  refine ⟨by decide, by decide, ?_⟩
  intro h
  exact absurd (congrArg dictKeys h) (by decide)

/-! ## C8: unique generated ids and key/id self-consistency -/

theorem mem_dictSet {α : Type} (m : List (String × α)) (k : String) (v : α)
    (e : String × α) (he : e ∈ dictSet m k v) : e = (k, v) ∨ e ∈ m := by
  induction m with
  | nil =>
    simp [dictSet] at he
    exact Or.inl he
  | cons hd tl ih =>
    cases hd with
    | mk k' v' =>
      by_cases hk : k' = k
      · simp [dictSet, hk] at he
        rcases he with he | he
        · exact Or.inl he
        · exact Or.inr (by simp [he])
      · simp [dictSet, hk] at he
        rcases he with he | he
        · exact Or.inr (by simp [he])
        · rcases ih he with h | h
          · exact Or.inl h
          · exact Or.inr (by simp [h])

theorem mem_dictPop_snd {α : Type} (m : List (String × α)) (k : String)
    (e : String × α) (he : e ∈ (dictPop m k).2) : e ∈ m := by
  induction m with
  | nil => simp [dictPop] at he
  | cons hd tl ih =>
    cases hd with
    | mk k' v' =>
      by_cases hk : k' = k
      · simp [dictPop, hk] at he
        exact by simp [he]
      · simp [dictPop, hk] at he
        rcases he with he | he
        · simp [he]
        · simp [ih he]

theorem dictGet?_mem {α : Type} (m : List (String × α)) (k : String) (v : α)
    (h : dictGet? m k = some v) : (k, v) ∈ m := by
  induction m with
  | nil => simp [dictGet?] at h
  | cons hd tl ih =>
    cases hd with
    | mk k' v' =>
      rw [dictGet?_cons] at h
      by_cases hk : k' = k
      · rw [if_pos hk] at h
        cases h
        simp [hk]
      · rw [if_neg hk] at h
        simp [ih h]

theorem plantsConsistent_dictSet (m : List (String × Plant)) (k : String)
    (v : Plant) (hm : plantsConsistent m) (hv : v.plant_id = k) :
    plantsConsistent (dictSet m k v) := by
  intro e he
  rcases mem_dictSet m k v e he with h | h
  · rw [h]
    exact hv
  · exact hm e h

theorem metersConsistent_dictSet (m : List (String × MeterLocation))
    (k : String) (v : MeterLocation) (hm : metersConsistent m)
    (hv : v.location_id = k) : metersConsistent (dictSet m k v) := by
  intro e he
  rcases mem_dictSet m k v e he with h | h
  · rw [h]
    exact hv
  · exact hm e h

theorem parseRawPlantsGo_consistent (items : List Json) :
    ∀ acc, plantsConsistent acc → plantsConsistent (parseRawPlantsGo items acc) := by
  induction items with
  | nil => intro acc h; exact h
  | cons item rest ih =>
    intro acc h
    rw [parseRawPlantsGo]
    by_cases hid : pyToStr (item.get "id") = ""
    · simpa [hid] using ih acc h
    · simp only [hid, if_neg hid]
      exact ih _ (plantsConsistent_dictSet acc _ _ h rfl)

theorem parseRawMetersGo_consistent (items : List Json) :
    ∀ acc, metersConsistent acc → metersConsistent (parseRawMetersGo items acc) := by
  induction items with
  | nil => intro acc h; exact h
  | cons item rest ih =>
    intro acc h
    rw [parseRawMetersGo]
    by_cases hid : pyToStr (item.get "id") = ""
    · simpa [hid] using ih acc h
    · simp only [hid, if_neg hid]
      exact ih _ (metersConsistent_dictSet acc _ _ h rfl)

/-- C8: every store operation preserves the invariant that each record is
keyed by its own id; `add_plant`/`add_meter_location` store the new
record under the freshly generated id (modelled as the `newId` drawn
from `uuid4`, assumed distinct from the existing keys) as a new final
key; and `_parse_raw` establishes the invariant for both stores. -/
theorem stored_ids_self_consistent :
    (∀ (op : PlantsOp) (m : List (String × Plant)),
      plantsConsistent m → plantsConsistent (applyPlantsOp op m)) ∧
    (∀ (m : List (String × Plant)) (newId name : String) (mo : Json),
      dictMem m newId = false →
      dictKeys (addPlant m newId name mo).2 = dictKeys m ++ [newId] ∧
      (addPlant m newId name mo).1.plant_id = newId ∧
      dictGet? (addPlant m newId name mo).2 newId
        = some (addPlant m newId name mo).1) ∧
    (∀ raw : Json, plantsConsistent (parseRawPlants raw)) ∧
    (∀ (op : MetersOp) (m : List (String × MeterLocation)),
      metersConsistent m → metersConsistent (applyMetersOp op m)) ∧
    (∀ (m : List (String × MeterLocation)) (newId name : String)
        (a b c d : Json),
      dictMem m newId = false →
      dictKeys (addMeterLocation m newId name a b c d).2
        = dictKeys m ++ [newId] ∧
      (addMeterLocation m newId name a b c d).1.location_id = newId ∧
      dictGet? (addMeterLocation m newId name a b c d).2 newId
        = some (addMeterLocation m newId name a b c d).1) ∧
    (∀ raw : Json, metersConsistent (parseRawMeters raw)) := by
  refine ⟨?_, ?_, ?_, ?_, ?_, ?_⟩
  · intro op m hm
    cases op with
    | add newId name mo =>
      exact plantsConsistent_dictSet m newId _ hm rfl
    | remove pid =>
      intro e he
      exact hm e (mem_dictPop_snd m pid e he)
    | setMoisture pid v =>
      simp only [applyPlantsOp, setPlantField]
      rcases hg : dictGet? m pid with _ | p
      · exact hm
      · have hpk : p.plant_id = pid := hm (pid, p) (dictGet?_mem m pid p hg)
        exact plantsConsistent_dictSet m pid _ hm hpk
    | setHumidity pid v =>
      simp only [applyPlantsOp, setPlantField]
      rcases hg : dictGet? m pid with _ | p
      · exact hm
      · have hpk : p.plant_id = pid := hm (pid, p) (dictGet?_mem m pid p hg)
        exact plantsConsistent_dictSet m pid _ hm hpk
    | setAirTemperature pid v =>
      simp only [applyPlantsOp, setPlantField]
      rcases hg : dictGet? m pid with _ | p
      · exact hm
      · have hpk : p.plant_id = pid := hm (pid, p) (dictGet?_mem m pid p hg)
        exact plantsConsistent_dictSet m pid _ hm hpk
    | setLight pid v =>
      simp only [applyPlantsOp, setPlantField]
      rcases hg : dictGet? m pid with _ | p
      · exact hm
      · have hpk : p.plant_id = pid := hm (pid, p) (dictGet?_mem m pid p hg)
        exact plantsConsistent_dictSet m pid _ hm hpk
    | setWater pid v =>
      simp only [applyPlantsOp, setPlantField]
      rcases hg : dictGet? m pid with _ | p
      · exact hm
      · have hpk : p.plant_id = pid := hm (pid, p) (dictGet?_mem m pid p hg)
        exact plantsConsistent_dictSet m pid _ hm hpk
    | setHumidifier pid v =>
      simp only [applyPlantsOp, setPlantField]
      rcases hg : dictGet? m pid with _ | p
      · exact hm
      · have hpk : p.plant_id = pid := hm (pid, p) (dictGet?_mem m pid p hg)
        exact plantsConsistent_dictSet m pid _ hm hpk
  · intro m newId name mo hfresh
    refine ⟨dictKeys_dictSet_fresh m newId _ hfresh, rfl,
      dictGet?_dictSet_self m newId _⟩
  · intro raw
    unfold parseRawPlants
    rcases raw.getD "plants" (.arr []) with _ | _ | _ | _ | items | _
    · intro e he; cases he
    · intro e he; cases he
    · intro e he; cases he
    · intro e he; cases he
    · exact parseRawPlantsGo_consistent items [] (fun e he => by cases he)
    · intro e he; cases he
  · intro op m hm
    cases op with
    | add newId name a b c d =>
      exact metersConsistent_dictSet m newId _ hm rfl
    | remove lid =>
      intro e he
      exact hm e (mem_dictPop_snd m lid e he)
    | setAirTemperature lid v =>
      simp only [applyMetersOp, setMeterField]
      rcases hg : dictGet? m lid with _ | l
      · exact hm
      · have hpk : l.location_id = lid := hm (lid, l) (dictGet?_mem m lid l hg)
        exact metersConsistent_dictSet m lid _ hm hpk
    | setAirHumidity lid v =>
      simp only [applyMetersOp, setMeterField]
      rcases hg : dictGet? m lid with _ | l
      · exact hm
      · have hpk : l.location_id = lid := hm (lid, l) (dictGet?_mem m lid l hg)
        exact metersConsistent_dictSet m lid _ hm hpk
    | setDescription lid v =>
      simp only [applyMetersOp, setMeterField]
      rcases hg : dictGet? m lid with _ | l
      · exact hm
      · have hpk : l.location_id = lid := hm (lid, l) (dictGet?_mem m lid l hg)
        exact metersConsistent_dictSet m lid _ hm hpk
    | setComments lid v =>
      simp only [applyMetersOp, setMeterField]
      rcases hg : dictGet? m lid with _ | l
      · exact hm
      · have hpk : l.location_id = lid := hm (lid, l) (dictGet?_mem m lid l hg)
        exact metersConsistent_dictSet m lid _ hm hpk
  · intro m newId name a b c d hfresh
    refine ⟨dictKeys_dictSet_fresh m newId _ hfresh, rfl,
      dictGet?_dictSet_self m newId _⟩
  · intro raw
    unfold parseRawMeters
    rcases raw.getD "meter_locations" (.arr []) with _ | _ | _ | _ | items | _
    · intro e he; cases he
    · intro e he; cases he
    · intro e he; cases he
    · intro e he; cases he
    · exact parseRawMetersGo_consistent items [] (fun e he => by cases he)
    · intro e he; cases he

/-- Witness for `stored_ids_self_consistent`: a fresh add on a one-plant
store and predicates at concrete stores. -/
theorem stored_ids_self_consistent_witness :
    plantsConsistent (applyPlantsOp (.remove "p1") [("p1", samplePlant)]) ∧
    dictKeys (addPlant [("p1", samplePlant)] "id2" "Tulip" .null).2
      = ["p1", "id2"] ∧
    (addPlant [("p1", samplePlant)] "id2" "Tulip" .null).1.plant_id = "id2" := by
  have h1 := stored_ids_self_consistent.1 (.remove "p1") [("p1", samplePlant)]
    (by intro e he; simp at he; subst he; decide)
  have h2 := stored_ids_self_consistent.2.1 [("p1", samplePlant)] "id2" "Tulip"
    .null (by decide)
  exact ⟨h1, by simpa [dictKeys] using h2.1, h2.2.1⟩

/-! ## C3 and C5: service handlers -/

theorem resolveEntry_error_iff (h : Hass) (eid : Option String) :
    resolveEntry h eid = .error () ↔ entryResolutionFails h eid := by
  cases eid with
  | some e =>
    by_cases hm : dictMem h.entries e <;>
      simp [resolveEntry, entryResolutionFails, hm]
  | none =>
    cases hentries : h.entries with
    | nil => simp [resolveEntry, entryResolutionFails, hentries]
    | cons hd tl => simp [resolveEntry, entryResolutionFails, hentries]

theorem resolveEntry_ok (h : Hass) (eid : Option String) (e : String)
    (hok : resolveEntry h eid = .ok e) :
    e = resolvedEntryId h eid ∧ dictMem h.entries e = true := by
  cases eid with
  | some e0 =>
    by_cases hm : dictMem h.entries e0
    · simp [resolveEntry, hm] at hok
      subst hok
      exact ⟨rfl, hm⟩
    · simp [resolveEntry, hm] at hok
  | none =>
    cases hentries : h.entries with
    | nil => simp [resolveEntry, hentries] at hok
    | cons hd tl =>
      obtain ⟨k, d⟩ := hd
      simp [resolveEntry, hentries] at hok
      subst hok
      refine ⟨by simp [resolvedEntryId, dictKeys, hentries], ?_⟩
      simp [dictMem, hentries]

theorem entryData_get (h : Hass) (e : String)
    (hm : dictMem h.entries e = true) :
    dictGet? h.entries e = some (entryData h e) := by
  have hs := (dictMem_iff_get h.entries e).mp hm
  rcases hg : dictGet? h.entries e with _ | d
  · rw [hg] at hs
    simp at hs
  · simp [entryData, hg]

theorem removePlantCascade_fst (data : LampAwareData) (pid : String) :
    (removePlantCascade data pid).1 = dictMem data.plants pid := by
  rw [← dictPop_fst_isSome data.plants pid]
  rcases hp : (dictPop data.plants pid).1 with _ | p <;>
    simp [removePlantCascade, hp]

theorem removeLamp_fst (data : LampAwareData) (lid : String) :
    (removeLamp data lid).1 = dictMem data.lamps lid := by
  rw [← dictPop_fst_isSome data.lamps lid]
  rfl

theorem removePlantCascade_not_found (data : LampAwareData) (pid : String)
    (h : dictMem data.plants pid = false) :
    removePlantCascade data pid = (false, data) := by
  have hp := dictPop_not_mem data.plants pid h
  simp [removePlantCascade, hp]

theorem removeLamp_not_found (data : LampAwareData) (lid : String)
    (h : dictMem data.lamps lid = false) :
    removeLamp data lid = (false, data) := by
  have hp := dictPop_not_mem data.lamps lid h
  simp [removeLamp, hp]

/-- The spec-modelled cascade: a successful `remove_plant` leaves the
removed plant id in no lamp's `plant_ids`. -/
theorem removePlantCascade_prunes (data : LampAwareData) (pid : String)
    (hrm : (removePlantCascade data pid).1 = true) :
    ∀ e ∈ (removePlantCascade data pid).2.lamps,
      pid ∉ (e.2 : Lamp).plant_ids := by
  intro e he
  rcases hp : (dictPop data.plants pid).1 with _ | p
  · simp [removePlantCascade, hp] at hrm
  · simp only [removePlantCascade, hp] at he
    obtain ⟨a, _, hae⟩ := List.mem_map.mp he
    intro hmem
    rw [← hae] at hmem
    simp only at hmem
    have := List.mem_filter.mp hmem
    simp at this

/-- C3: after a completed (non-raising) `plants.remove_plant` service
call, the removed plant id is absent from every lamp's `plant_ids` —
stated for the spec-modelled lamp-aware `PlantsData.remove_plant` and
for the `_handle_remove_plant` handler on the resolved entry's stored
data. -/
theorem remove_plant_prunes_lamp_links :
    (∀ (data : LampAwareData) (pid : String),
      (removePlantCascade data pid).1 = true →
      ∀ e ∈ (removePlantCascade data pid).2.lamps,
        pid ∉ (e.2 : Lamp).plant_ids) ∧
    (∀ (h : Hass) (eid : Option String) (pid : String),
      (handleRemovePlant h eid pid).raised = none →
      ∀ e ∈ (entryData (handleRemovePlant h eid pid).hass
          (resolvedEntryId h eid)).lamps,
        pid ∉ (e.2 : Lamp).plant_ids) := by
  refine ⟨removePlantCascade_prunes, ?_⟩
  intro h eid pid hraised
  rcases hre : resolveEntry h eid with u | e0
  · simp [handleRemovePlant, hre] at hraised
  · obtain ⟨heq, hmem⟩ := resolveEntry_ok h eid e0 hre
    by_cases hr1 : (removePlantCascade (entryData h e0) pid).1 = true
    · have houtcome : handleRemovePlant h eid pid =
          ⟨⟨dictSet h.entries e0 (removePlantCascade (entryData h e0) pid).2⟩,
            true, none⟩ := by
        simp [handleRemovePlant, hre, hr1]
      rw [houtcome]
      have hdata : entryData
          ⟨dictSet h.entries e0 (removePlantCascade (entryData h e0) pid).2⟩
          (resolvedEntryId h eid)
          = (removePlantCascade (entryData h e0) pid).2 := by
        rw [← heq]
        simp [entryData, dictGet?_dictSet_self]
      rw [hdata]
      exact removePlantCascade_prunes (entryData h e0) pid hr1
    · simp [handleRemovePlant, hre, hr1] at hraised

/-- Witness for `remove_plant_prunes_lamp_links` at a concrete store with
one plant linked from one lamp. -/
theorem remove_plant_prunes_lamp_links_witness :
    (∀ e ∈ (removePlantCascade ⟨[("p1", samplePlant)], [("l1", sampleLamp)]⟩
        "p1").2.lamps, "p1" ∉ (e.2 : Lamp).plant_ids) ∧
    (∀ e ∈ (entryData
        (handleRemovePlant ⟨[("e1", ⟨[("p1", samplePlant)], [("l1", sampleLamp)]⟩)]⟩
          none "p1").hass
        (resolvedEntryId ⟨[("e1", ⟨[("p1", samplePlant)], [("l1", sampleLamp)]⟩)]⟩
          none)).lamps, "p1" ∉ (e.2 : Lamp).plant_ids) := by
  constructor
  · exact remove_plant_prunes_lamp_links.1
      ⟨[("p1", samplePlant)], [("l1", sampleLamp)]⟩ "p1" (by decide)
  · exact remove_plant_prunes_lamp_links.2
      ⟨[("e1", ⟨[("p1", samplePlant)], [("l1", sampleLamp)]⟩)]⟩ none "p1" (by rfl)

/-- C5: each identifier-carrying service handler raises
`ServiceValidationError` (with its translation key) exactly when the
identifier fails to resolve against the stored data — the explicit
`entry_id` (or, with none given, the existence of a first entry), then
the `plant_id`/`lamp_id` in the resolved entry's data — and a raising
run leaves the stored data unchanged and never calls `async_save`,
while a non-raising run saves. -/
theorem service_handlers_raise_iff_not_found :
    (∀ (h : Hass) (eid : Option String) (pid : String),
      ((handleRemovePlant h eid pid).raised.isSome = true ↔
        (entryResolutionFails h eid ∨
          dictMem (entryData h (resolvedEntryId h eid)).plants pid = false)) ∧
      ((handleRemovePlant h eid pid).raised.isSome = true →
        (handleRemovePlant h eid pid).hass = h ∧
        (handleRemovePlant h eid pid).saved = false) ∧
      ((handleRemovePlant h eid pid).raised = none →
        (handleRemovePlant h eid pid).saved = true)) ∧
    (∀ (h : Hass) (eid : Option String) (lid : String),
      ((handleRemoveLamp h eid lid).raised.isSome = true ↔
        (entryResolutionFails h eid ∨
          dictMem (entryData h (resolvedEntryId h eid)).lamps lid = false)) ∧
      ((handleRemoveLamp h eid lid).raised.isSome = true →
        (handleRemoveLamp h eid lid).hass = h ∧
        (handleRemoveLamp h eid lid).saved = false) ∧
      ((handleRemoveLamp h eid lid).raised = none →
        (handleRemoveLamp h eid lid).saved = true)) ∧
    (∀ (h : Hass) (eid : Option String) (lid : String) (pids : List String),
      ((handleLinkLampPlants h eid lid pids).raised.isSome = true ↔
        (entryResolutionFails h eid ∨
          dictMem (entryData h (resolvedEntryId h eid)).lamps lid = false)) ∧
      ((handleLinkLampPlants h eid lid pids).raised.isSome = true →
        (handleLinkLampPlants h eid lid pids).hass = h ∧
        (handleLinkLampPlants h eid lid pids).saved = false) ∧
      ((handleLinkLampPlants h eid lid pids).raised = none →
        (handleLinkLampPlants h eid lid pids).saved = true)) ∧
    (∀ (h : Hass) (eid : Option String) (lid : String) (outlet : Json),
      ((handleSetLampOutlet h eid lid outlet).raised.isSome = true ↔
        (entryResolutionFails h eid ∨
          dictMem (entryData h (resolvedEntryId h eid)).lamps lid = false)) ∧
      ((handleSetLampOutlet h eid lid outlet).raised.isSome = true →
        (handleSetLampOutlet h eid lid outlet).hass = h ∧
        (handleSetLampOutlet h eid lid outlet).saved = false) ∧
      ((handleSetLampOutlet h eid lid outlet).raised = none →
        (handleSetLampOutlet h eid lid outlet).saved = true)) := by
  refine ⟨?_, ?_, ?_, ?_⟩
  · intro h eid pid
    rcases hre : resolveEntry h eid with u | e0
    · have hfail : entryResolutionFails h eid := by
        rw [← resolveEntry_error_iff]
        cases u
        exact hre
      refine ⟨?_, ?_, ?_⟩ <;> simp [handleRemovePlant, hre, hfail]
    · obtain ⟨heq, hmem⟩ := resolveEntry_ok h eid e0 hre
      have hnofail : ¬ entryResolutionFails h eid := by
        intro hf
        have := (resolveEntry_error_iff h eid).mpr hf
        rw [hre] at this
        cases this
      by_cases hfound : dictMem (entryData h e0).plants pid = true
      · have hr1 : (removePlantCascade (entryData h e0) pid).1 = true := by
          rw [removePlantCascade_fst, hfound]
        refine ⟨?_, ?_, ?_⟩ <;>
          simp [handleRemovePlant, hre, hr1, hnofail, ← heq, hfound]
      · have hfalse : dictMem (entryData h e0).plants pid = false := by
          simpa using hfound
        have hrc := removePlantCascade_not_found (entryData h e0) pid hfalse
        have hset : dictSet h.entries e0 (entryData h e0) = h.entries :=
          dictSet_get_self h.entries e0 _ (entryData_get h e0 hmem)
        refine ⟨?_, ?_, ?_⟩ <;>
          simp [handleRemovePlant, hre, hrc, hnofail, ← heq, hfalse, hset]
  · intro h eid lid
    rcases hre : resolveEntry h eid with u | e0
    · have hfail : entryResolutionFails h eid := by
        rw [← resolveEntry_error_iff]
        cases u
        exact hre
      refine ⟨?_, ?_, ?_⟩ <;> simp [handleRemoveLamp, hre, hfail]
    · obtain ⟨heq, hmem⟩ := resolveEntry_ok h eid e0 hre
      have hnofail : ¬ entryResolutionFails h eid := by
        intro hf
        have := (resolveEntry_error_iff h eid).mpr hf
        rw [hre] at this
        cases this
      by_cases hfound : dictMem (entryData h e0).lamps lid = true
      · have hr1 : (removeLamp (entryData h e0) lid).1 = true := by
          rw [removeLamp_fst, hfound]
        refine ⟨?_, ?_, ?_⟩ <;>
          simp [handleRemoveLamp, hre, hr1, hnofail, ← heq, hfound]
      · have hfalse : dictMem (entryData h e0).lamps lid = false := by
          simpa using hfound
        have hrc := removeLamp_not_found (entryData h e0) lid hfalse
        have hset : dictSet h.entries e0 (entryData h e0) = h.entries :=
          dictSet_get_self h.entries e0 _ (entryData_get h e0 hmem)
        refine ⟨?_, ?_, ?_⟩ <;>
          simp [handleRemoveLamp, hre, hrc, hnofail, ← heq, hfalse, hset]
  · intro h eid lid pids
    rcases hre : resolveEntry h eid with u | e0
    · have hfail : entryResolutionFails h eid := by
        rw [← resolveEntry_error_iff]
        cases u
        exact hre
      refine ⟨?_, ?_, ?_⟩ <;> simp [handleLinkLampPlants, hre, hfail]
    · obtain ⟨heq, _⟩ := resolveEntry_ok h eid e0 hre
      have hnofail : ¬ entryResolutionFails h eid := by
        intro hf
        have := (resolveEntry_error_iff h eid).mpr hf
        rw [hre] at this
        cases this
      by_cases hfound : dictMem (entryData h e0).lamps lid = true
      · refine ⟨?_, ?_, ?_⟩ <;>
          simp [handleLinkLampPlants, hre, hfound, hnofail, ← heq]
      · have hfalse : dictMem (entryData h e0).lamps lid = false := by
          simpa using hfound
        refine ⟨?_, ?_, ?_⟩ <;>
          simp [handleLinkLampPlants, hre, hfalse, hnofail, ← heq]
  · intro h eid lid outlet
    rcases hre : resolveEntry h eid with u | e0
    · have hfail : entryResolutionFails h eid := by
        rw [← resolveEntry_error_iff]
        cases u
        exact hre
      refine ⟨?_, ?_, ?_⟩ <;> simp [handleSetLampOutlet, hre, hfail]
    · obtain ⟨heq, _⟩ := resolveEntry_ok h eid e0 hre
      have hnofail : ¬ entryResolutionFails h eid := by
        intro hf
        have := (resolveEntry_error_iff h eid).mpr hf
        rw [hre] at this
        cases this
      by_cases hfound : dictMem (entryData h e0).lamps lid = true
      · refine ⟨?_, ?_, ?_⟩ <;>
          simp [handleSetLampOutlet, hre, hfound, hnofail, ← heq]
      · have hfalse : dictMem (entryData h e0).lamps lid = false := by
          simpa using hfound
        refine ⟨?_, ?_, ?_⟩ <;>
          simp [handleSetLampOutlet, hre, hfalse, hnofail, ← heq]

/-- Witness for `service_handlers_raise_iff_not_found` on a concrete
store: an unknown plant id raises and leaves everything unchanged; an
unknown lamp id likewise. -/
theorem service_handlers_raise_iff_not_found_witness :
    ((handleRemovePlant ⟨[("e1", ⟨[("p1", samplePlant)], [("l1", sampleLamp)]⟩)]⟩
        none "nope").raised.isSome = true ↔
      (entryResolutionFails
          ⟨[("e1", ⟨[("p1", samplePlant)], [("l1", sampleLamp)]⟩)]⟩ none ∨
        dictMem (entryData
            ⟨[("e1", ⟨[("p1", samplePlant)], [("l1", sampleLamp)]⟩)]⟩
            (resolvedEntryId
              ⟨[("e1", ⟨[("p1", samplePlant)], [("l1", sampleLamp)]⟩)]⟩
              none)).plants "nope" = false)) ∧
    ((handleRemoveLamp ⟨[("e1", ⟨[("p1", samplePlant)], [("l1", sampleLamp)]⟩)]⟩
        none "nope").raised.isSome = true →
      (handleRemoveLamp ⟨[("e1", ⟨[("p1", samplePlant)], [("l1", sampleLamp)]⟩)]⟩
        none "nope").hass =
        ⟨[("e1", ⟨[("p1", samplePlant)], [("l1", sampleLamp)]⟩)]⟩ ∧
      (handleRemoveLamp ⟨[("e1", ⟨[("p1", samplePlant)], [("l1", sampleLamp)]⟩)]⟩
        none "nope").saved = false) := by
  constructor
  · exact (service_handlers_raise_iff_not_found.1
      ⟨[("e1", ⟨[("p1", samplePlant)], [("l1", sampleLamp)]⟩)]⟩ none "nope").1
  · exact (service_handlers_raise_iff_not_found.2.1
      ⟨[("e1", ⟨[("p1", samplePlant)], [("l1", sampleLamp)]⟩)]⟩ none "nope").2.1

/-! ## C4: the timed watering sequence -/

theorem getStatesList_ok_acts (env : Env) (o : HttpOutcome)
    (h : (getStatesList env o).1.2 = none) :
    (getStatesList env o).2 = [Act.get "/api/states"] := by
  unfold getStatesList at h ⊢
  rcases he : (haRequest env o).error with _ | e
  · have hreq := haRequest_error_none_requested env o he
    simp only [hreq, he, if_true]
    split <;> rfl
  · simp [he] at h

/-- The success path of the shared `plant_care___water`/`water_plant`
body: with a positive duration, a good states response, a matched plant
with a truthy configured switch whose outlet state is present and not
unavailable, and non-erroring turn-on and turn-off calls, the performed
actions are exactly: list states, turn the switch on, sleep for the
duration, turn the switch off. -/
theorem waterPlantTimed_success_trace (suffixes : List (String × String))
    (env : Env) (sOut onOut offOut : HttpOutcome)
    (identifier : String) (d : Int) (plantName : String)
    (switchId : Json) (outletState : Json)
    (hd : 0 < d)
    (hserr : (getStatesList env sOut).1.2 = none)
    (hmatch : matchPlantName
      (dictKeys (parsePlantsFromStates suffixes (getStatesList env sOut).1.1))
      identifier = some plantName)
    (hswitch : ((dictGet? (parsePlantsFromStates suffixes
        (getStatesList env sOut).1.1) plantName).getD (.obj [])).get
        "water_power_entity_id" = switchId)
    (htruthy : pyTruthy switchId = true)
    (houtlet : (getStatesList env sOut).1.1.find?
        (fun s => pyEq (s.get "entity_id") switchId) = some outletState)
    (havail : (outletState.get "state").isStr "unavailable" = false)
    (honerr : (haRequest env onOut).error = none)
    (hofferr : (haRequest env offOut).error = none) :
    waterPlantTimed suffixes env sOut onOut offOut identifier d
      = ([Act.get "/api/states",
          Act.post "/api/services/switch/turn_on"
            (.obj [("entity_id", switchId)]),
          Act.sleep d,
          Act.post "/api/services/switch/turn_off"
            (.obj [("entity_id", switchId)])],
         .obj [("status", .str "success"), ("plant", .str plantName),
               ("water_switch", switchId), ("duration_seconds", .num d)]) := by
  have hdpos : ¬ d ≤ 0 := by omega
  have hacts := getStatesList_ok_acts env sOut hserr
  have honreq := haRequest_error_none_requested env onOut honerr
  have hoffreq := haRequest_error_none_requested env offOut hofferr
  unfold waterPlantTimed
  rw [if_neg hdpos]
  simp only [hserr, hacts, hmatch, hswitch, htruthy, houtlet, havail,
    honerr, hofferr, honreq, hoffreq]
  simp

/-- C4 (amended): `plant_care___water` and the `water_plant` of
`plants_mcp/tools/plants.py` perform exactly: turn the switch on, sleep
for `duration_seconds`, turn the switch off — the turn-off request is
only issued after the sleep (so an execution stopping during the sleep
has turned the switch on and never off).  The `water_plant` of
`mcp/tools/plants.py` is a different tool without this sequence (see the
counterexample). -/
theorem timed_watering_on_sleep_off (env : Env)
    (sOut onOut offOut : HttpOutcome) (identifier : String) (d : Int)
    (plantName : String) (switchId outletState : Json)
    (hd : 0 < d)
    (hserr : (getStatesList env sOut).1.2 = none)
    (honerr : (haRequest env onOut).error = none)
    (hofferr : (haRequest env offOut).error = none) :
    (matchPlantName
        (dictKeys (parsePlantsFromStates plantSuffixesCommon
          (getStatesList env sOut).1.1)) identifier = some plantName →
      ((dictGet? (parsePlantsFromStates plantSuffixesCommon
          (getStatesList env sOut).1.1) plantName).getD (.obj [])).get
          "water_power_entity_id" = switchId →
      pyTruthy switchId = true →
      (getStatesList env sOut).1.1.find?
          (fun s => pyEq (s.get "entity_id") switchId) = some outletState →
      (outletState.get "state").isStr "unavailable" = false →
      plantCareWater env sOut onOut offOut identifier d
        = ([Act.get "/api/states",
            Act.post "/api/services/switch/turn_on"
              (.obj [("entity_id", switchId)]),
            Act.sleep d,
            Act.post "/api/services/switch/turn_off"
              (.obj [("entity_id", switchId)])],
           .obj [("status", .str "success"), ("plant", .str plantName),
                 ("water_switch", switchId), ("duration_seconds", .num d)])) ∧
    (matchPlantName
        (dictKeys (parsePlantsFromStates plantSuffixesPlantsTool
          (getStatesList env sOut).1.1)) identifier = some plantName →
      ((dictGet? (parsePlantsFromStates plantSuffixesPlantsTool
          (getStatesList env sOut).1.1) plantName).getD (.obj [])).get
          "water_power_entity_id" = switchId →
      pyTruthy switchId = true →
      (getStatesList env sOut).1.1.find?
          (fun s => pyEq (s.get "entity_id") switchId) = some outletState →
      (outletState.get "state").isStr "unavailable" = false →
      waterPlantPlantsTool env sOut onOut offOut identifier d
        = ([Act.get "/api/states",
            Act.post "/api/services/switch/turn_on"
              (.obj [("entity_id", switchId)]),
            Act.sleep d,
            Act.post "/api/services/switch/turn_off"
              (.obj [("entity_id", switchId)])],
           .obj [("status", .str "success"), ("plant", .str plantName),
                 ("water_switch", switchId), ("duration_seconds", .num d)])) := by
  constructor
  · intro hmatch hswitch htruthy houtlet havail
    exact waterPlantTimed_success_trace plantSuffixesCommon env sOut onOut
      offOut identifier d plantName switchId outletState hd hserr hmatch
      hswitch htruthy houtlet havail honerr hofferr
  · intro hmatch hswitch htruthy houtlet havail
    exact waterPlantTimed_success_trace plantSuffixesPlantsTool env sOut onOut
      offOut identifier d plantName switchId outletState hd hserr hmatch
      hswitch htruthy houtlet havail honerr hofferr

/-- Witness for `timed_watering_on_sleep_off` on a concrete plant with an
available switch and a 3-second watering. -/
theorem timed_watering_on_sleep_off_witness :
    plantCareWater ⟨some "http://ha", some "tok"⟩
        (.ok ⟨200, "", .jsonContent
          (.arr [mkStateRecord "switch.rose_water"
            "Rose Auto Watering Control" "off"])⟩)
        (.ok ⟨200, "", .empty⟩) (.ok ⟨200, "", .empty⟩) "Rose" 3
      = ([Act.get "/api/states",
          Act.post "/api/services/switch/turn_on"
            (.obj [("entity_id", .str "switch.rose_water")]),
          Act.sleep 3,
          Act.post "/api/services/switch/turn_off"
            (.obj [("entity_id", .str "switch.rose_water")])],
         .obj [("status", .str "success"), ("plant", .str "Rose"),
               ("water_switch", .str "switch.rose_water"),
               ("duration_seconds", .num 3)]) ∧
    waterPlantPlantsTool ⟨some "http://ha", some "tok"⟩
        (.ok ⟨200, "", .jsonContent
          (.arr [mkStateRecord "switch.rose_water" "Rose Water Power" "off"])⟩)
        (.ok ⟨200, "", .empty⟩) (.ok ⟨200, "", .empty⟩) "Rose" 3
      = ([Act.get "/api/states",
          Act.post "/api/services/switch/turn_on"
            (.obj [("entity_id", .str "switch.rose_water")]),
          Act.sleep 3,
          Act.post "/api/services/switch/turn_off"
            (.obj [("entity_id", .str "switch.rose_water")])],
         .obj [("status", .str "success"), ("plant", .str "Rose"),
               ("water_switch", .str "switch.rose_water"),
               ("duration_seconds", .num 3)]) := by
  constructor
  · exact (timed_watering_on_sleep_off ⟨some "http://ha", some "tok"⟩
      (.ok ⟨200, "", .jsonContent
        (.arr [mkStateRecord "switch.rose_water"
          "Rose Auto Watering Control" "off"])⟩)
      (.ok ⟨200, "", .empty⟩) (.ok ⟨200, "", .empty⟩) "Rose" 3 "Rose"
      (.str "switch.rose_water")
      (mkStateRecord "switch.rose_water" "Rose Auto Watering Control" "off")
      (by norm_num) (by rfl) (by rfl) (by rfl)).1
      (by rfl) (by rfl) (by rfl) (by rfl) (by rfl)
  · exact (timed_watering_on_sleep_off ⟨some "http://ha", some "tok"⟩
      (.ok ⟨200, "", .jsonContent
        (.arr [mkStateRecord "switch.rose_water" "Rose Water Power" "off"])⟩)
      (.ok ⟨200, "", .empty⟩) (.ok ⟨200, "", .empty⟩) "Rose" 3 "Rose"
      (.str "switch.rose_water")
      (mkStateRecord "switch.rose_water" "Rose Water Power" "off")
      (by norm_num) (by rfl) (by rfl) (by rfl)).2
      (by rfl) (by rfl) (by rfl) (by rfl) (by rfl)

/-- C4 counterexample: the `water_plant` the claim cites
(`mcp/tools/plants.py`) does not perform the on/sleep/off sequence.  A
fully successful watering run issues two GETs and two service POSTs
(`datetime/set_value` and `number/set_value`), contains no sleep action
and no `switch/turn_on` request, and takes no duration at all. -/
theorem water_plant_mcp_no_sleep :
    (waterPlantMcp ⟨some "http://ha", some "tok"⟩
        (.ok ⟨200, "", .jsonContent (.arr [.obj [("domain", .str "plants"),
          ("entry_id", .str "e1"), ("title", .str "Rose")]])⟩)
        (.ok ⟨200, "", .jsonContent (.arr
          [.obj [("config_entry_id", .str "e1"),
                 ("entity_id", .str "datetime.rose_last_watered")],
           .obj [("config_entry_id", .str "e1"),
                 ("entity_id", .str "number.rose_soil_moisture")]])⟩)
        (.ok ⟨200, "", .empty⟩) (.ok ⟨200, "", .empty⟩)
        "Rose" "2024-01-01T00:00:00+00:00").1
      = [Act.get "/api/config/config_entries/entries",
         Act.get "/api/config/entity_registry/list",
         Act.post "/api/services/datetime/set_value"
           (.obj [("entity_id", .str "datetime.rose_last_watered"),
                  ("value", .str "2024-01-01T00:00:00+00:00")]),
         Act.post "/api/services/number/set_value"
           (.obj [("entity_id", .str "number.rose_soil_moisture"),
                  ("value", .num 100)])] ∧
    ((waterPlantMcp ⟨some "http://ha", some "tok"⟩
        (.ok ⟨200, "", .jsonContent (.arr [.obj [("domain", .str "plants"),
          ("entry_id", .str "e1"), ("title", .str "Rose")]])⟩)
        (.ok ⟨200, "", .jsonContent (.arr
          [.obj [("config_entry_id", .str "e1"),
                 ("entity_id", .str "datetime.rose_last_watered")],
           .obj [("config_entry_id", .str "e1"),
                 ("entity_id", .str "number.rose_soil_moisture")]])⟩)
        (.ok ⟨200, "", .empty⟩) (.ok ⟨200, "", .empty⟩)
        "Rose" "2024-01-01T00:00:00+00:00").1.all
      (fun a => !a.isSleep && !(a.isPostTo "/api/services/switch/turn_on") &&
        !(a.isPostTo "/api/services/switch/turn_off"))) = true ∧
    ((waterPlantMcp ⟨some "http://ha", some "tok"⟩
        (.ok ⟨200, "", .jsonContent (.arr [.obj [("domain", .str "plants"),
          ("entry_id", .str "e1"), ("title", .str "Rose")]])⟩)
        (.ok ⟨200, "", .jsonContent (.arr
          [.obj [("config_entry_id", .str "e1"),
                 ("entity_id", .str "datetime.rose_last_watered")],
           .obj [("config_entry_id", .str "e1"),
                 ("entity_id", .str "number.rose_soil_moisture")]])⟩)
        (.ok ⟨200, "", .empty⟩) (.ok ⟨200, "", .empty⟩)
        "Rose" "2024-01-01T00:00:00+00:00").2).get "status" = .str "success" := by
  exact ⟨by rfl, by rfl, by rfl⟩

/-! ## C2: tool result statuses -/

theorem errorResult_status (msg : String) :
    (errorResult msg).get "status" = .str "error" := rfl

theorem manageGetPlantFieldsInfo_status (env : Env) (sOut : HttpOutcome)
    (plantName : String) :
    (manageGetPlantFieldsInfo env sOut plantName).2.get "status" = .str "error"
      ∨ (manageGetPlantFieldsInfo env sOut plantName).2.get "status"
          = .str "success" := by
  unfold manageGetPlantFieldsInfo
  rcases h1 : (getStatesList env sOut).1.2 with _ | e
  · simp only [h1]
    rcases h2 : matchPlantName
        (dictKeys (parsePlantsFromStates plantSuffixesCommon
          (getStatesList env sOut).1.1)) plantName with _ | n
    · simp only [h2]
      exact Or.inl rfl
    · simp only [h2]
      exact Or.inr rfl
  · simp only [h1]
    exact Or.inl rfl

/-- C2 (amended): the result status of `manage___set_plant_fields` is
always one of `"error"`, `"success"`, or `"partial_success"` (the
embedded tool is a total function, so no exception reaches the
caller). -/
theorem manage_set_plant_fields_status (env : Env) (sOut : HttpOutcome)
    (oracle : Nat → HttpOutcome) (plantName : String) (fields : List Json) :
    (manageSetPlantFields env sOut oracle plantName fields).2.get "status"
        = .str "error"
      ∨ (manageSetPlantFields env sOut oracle plantName fields).2.get "status"
          = .str "success"
      ∨ (manageSetPlantFields env sOut oracle plantName fields).2.get "status"
          = .str "partial_success" := by
  unfold manageSetPlantFields
  by_cases hf : fields.isEmpty
  · simp only [hf, if_true]
    exact Or.inl rfl
  · simp only [hf, if_false, Bool.false_eq_true]
    by_cases hs : ((manageGetPlantFieldsInfo env sOut plantName).2.get
        "status").isStr "success" = true
    · simp only [hs, not_true, if_false]
      by_cases hv : (validateFields plantName
          (buildEditable
            (match ((manageGetPlantFieldsInfo env sOut plantName).2.get
                "fields").get "recommendations" with
              | .arr l => l
              | _ => [])
            (buildEditable
              (match ((manageGetPlantFieldsInfo env sOut plantName).2.get
                  "fields").get "configuration" with
                | .arr l => l
                | _ => []) [])) fields).1.isEmpty
      · simp only [hv, not_true, if_false]
        by_cases he : (execUpdates env oracle (validateFields plantName
            (buildEditable
              (match ((manageGetPlantFieldsInfo env sOut plantName).2.get
                  "fields").get "recommendations" with
                | .arr l => l
                | _ => [])
              (buildEditable
                (match ((manageGetPlantFieldsInfo env sOut plantName).2.get
                    "fields").get "configuration" with
                  | .arr l => l
                  | _ => []) [])) fields).2 0).2.1.isEmpty
        · simp only [he, not_true, if_false]
          exact Or.inr (Or.inl rfl)
        · simp only [he, if_true]
          exact Or.inr (Or.inr rfl)
      · simp only [hv, if_true]
        exact Or.inl rfl
    · simp only [hs, if_true]
      have hmem := manageGetPlantFieldsInfo_status env sOut plantName
      rcases hmem with he | hsucc
      · exact Or.inl he
      · exact absurd (by rw [hsucc]; rfl) hs

/-- C2 counterexample: a fully validated text-field update whose service
call fails makes `manage___set_plant_fields` return
`{"status": "partial_success", ...}` — a status that is neither
`"error"` nor `"success"`, refuting the claim that no other status value
is ever returned. -/
theorem manage_set_plant_fields_partial_success :
    (manageSetPlantFields ⟨some "http://ha", some "tok"⟩
        (.ok ⟨200, "", .jsonContent (.arr [mkStateRecord "text.rose_todo"
          "Rose Todo List (e.g., - repot in spring; - prune dry leaves;)"
          "old"])⟩)
        (fun _ => .error "boom")
        "Rose" [.obj [("entity_id", .str "text.rose_todo"),
          ("value", .str "water")]]).2.get "status"
      = .str "partial_success" ∧
    (Json.str "partial_success" ≠ .str "error") ∧
    (Json.str "partial_success" ≠ .str "success") := by
  refine ⟨by rfl, ?_, ?_⟩ <;>
    · intro h
      rw [Json.str.injEq] at h
      exact absurd h (by decide)

end HomePlants
